import Mathlib

/-!
Verification of the telegram-api-fetch repository: a shallow embedding of its
Zod validation schemas (src/webhooks/schemas.ts, src/client/keyboards.ts),
its client configuration (src/client/config.ts) and the request-encoding and
response-unwrapping logic of the HTTP client (src/client/index.ts), together
with proofs of the specified properties.

JavaScript strings are modelled as Lean strings (sequences of Unicode scalar
values); `String.prototype.length` (UTF-16 code units) is modelled by
`utf16Len` and the UTF-8 byte length of a string by `utf8ByteLen`.
-/

/-- Number of UTF-16 code units of a string, as JavaScript's `String.length`
computes it (astral-plane characters count as two units). -/
def utf16Len (s : String) : Nat :=
  s.data.foldl (fun n c => n + (if c.val ≤ 0xFFFF then 1 else 2)) 0

/-- Number of bytes of the UTF-8 encoding of a string. -/
def utf8ByteLen (s : String) : Nat :=
  s.data.foldl
    (fun n c =>
      n +
        (if c.val ≤ 0x7F then 1
         else if c.val ≤ 0x7FF then 2
         else if c.val ≤ 0xFFFF then 3
         else 4))
    0

/-- ASCII letter test for URL scheme characters. -/
def isSchemeStart (c : Char) : Bool :=
  (0x41 ≤ c.val && c.val ≤ 0x5A) || (0x61 ≤ c.val && c.val ≤ 0x7A)

/-- Characters allowed after the first character of a URL scheme. -/
def isSchemeChar (c : Char) : Bool :=
  isSchemeStart c || (0x30 ≤ c.val && c.val ≤ 0x39) ||
    c.val = 0x2B || c.val = 0x2D || c.val = 0x2E

/-- Splits a character list at the first colon, returning the scheme part and
the remainder (without the colon). -/
def splitScheme : List Char → Option (List Char × List Char)
  | [] => none
  | c :: cs =>
    if c.val = 0x3A then some ([], cs)
    else match splitScheme cs with
      | none => none
      | some (sch, rest) => some (c :: sch, rest)

/-- Whether a scheme names one of the WHATWG "special" schemes, which require
an authority with a nonempty host. -/
def isSpecialScheme (sch : List Char) : Bool :=
  let s := String.mk sch
  s = "http" || s = "https" || s = "ws" || s = "wss" || s = "ftp" || s = "file"

/-- Models the accept/reject behaviour of the host `new URL(input)` constructor
used by `z.string().url()`: the input must start with a valid scheme followed
by a colon, and special schemes additionally require `//` plus a nonempty
host. -/
def jsURLValid (s : String) : Bool :=
  match splitScheme s.data with
  | none => false
  | some (sch, rest) =>
    (match sch with
     | [] => false
     | c :: cs => isSchemeStart c && cs.all isSchemeChar) &&
    (if isSpecialScheme sch then
       match rest with
       | a :: b :: c :: _ => a.val = 0x2F && b.val = 0x2F && !(c.val = 0x2F)
       | _ => false
     else true)

example : jsURLValid "https://api.telegram.org" = true := by decide
example : jsURLValid "not a url" = false := by decide
example : jsURLValid "" = false := by decide

/-! ## JSON values

A parsed-JSON tree as handed to the Zod `parse` calls.  Field lists and
element lists are separate mutual inductives so that the self-referential
`MessageSchema` validator can be defined by structural recursion. -/

mutual
inductive Json where
  | null : Json
  | bool (b : Bool) : Json
  | num (q : Rat) : Json
  | str (s : String) : Json
  | arr (elems : JsonList) : Json
  | obj (fields : JsonFields) : Json

inductive JsonList where
  | nil : JsonList
  | cons (hd : Json) (tl : JsonList) : JsonList

inductive JsonFields where
  | nil : JsonFields
  | cons (key : String) (val : Json) (tl : JsonFields) : JsonFields
end

/-- Appends two field lists. -/
def jfAppend : JsonFields → JsonFields → JsonFields
  | .nil, r => r
  | .cons k v tl, r => .cons k v (jfAppend tl r)

/-- First-match alternative on optional JSON values. -/
def jor : Option Json → Option Json → Option Json
  | some v, _ => some v
  | none, r => r

/-- Looks up the first occurrence of a key in a field list; `none` models a
key that is absent from the underlying JavaScript object (i.e. reads as
`undefined`). -/
def jLookup : JsonFields → String → Option Json
  | .nil, _ => none
  | .cons k v tl, key => if k = key then some v else jLookup tl key

@[simp] theorem jfAppend_nil (r : JsonFields) : jfAppend .nil r = r := rfl

@[simp] theorem jfAppend_cons (k : String) (v : Json) (tl r : JsonFields) :
    jfAppend (.cons k v tl) r = .cons k v (jfAppend tl r) := rfl

@[simp] theorem jor_some (v : Json) (r : Option Json) : jor (some v) r = some v := rfl

@[simp] theorem jor_none (r : Option Json) : jor none r = r := rfl

theorem jLookup_append (l r : JsonFields) (key : String) :
    jLookup (jfAppend l r) key = jor (jLookup l key) (jLookup r key) := by
  match l with
  | .nil => rfl
  | .cons k v tl =>
    by_cases h : k = key <;>
      simp [jfAppend, jLookup, h, jLookup_append tl r key, jor]

example : jLookup (.cons "a" .null (.cons "b" (.bool true) .nil)) "b" = some (.bool true) :=
  rfl

example : ("ab" : String) ≠ "cd" := by simp

/-! ## Typed data model

The TypeScript types inferred from the Zod schemas in
`src/webhooks/schemas.ts` and `src/client/keyboards.ts`.  Optional schema
fields become `Option` fields; absent means `none`. -/

/-- The closed enum of `ChatSchema.type` (`private` is a Lean keyword, hence
the constructor name `privateChat`). -/
inductive ChatType where
  | privateChat | group | supergroup | channel
deriving DecidableEq

/-- `UserSchema`. -/
structure User where
  id : Int
  is_bot : Bool
  first_name : String
  last_name : Option String
  username : Option String
  language_code : Option String
  is_premium : Option Bool
  added_to_attachment_menu : Option Bool
  can_join_groups : Option Bool
  can_read_all_group_messages : Option Bool
  supports_inline_queries : Option Bool
deriving DecidableEq

/-- `ChatSchema`. -/
structure Chat where
  id : Int
  type : ChatType
  title : Option String
  username : Option String
  first_name : Option String
  last_name : Option String
  is_forum : Option Bool
deriving DecidableEq

/-- `PhotoSizeSchema`. -/
structure PhotoSize where
  file_id : String
  file_unique_id : String
  width : Int
  height : Int
  file_size : Option Int
deriving DecidableEq

/-- `LocationSchema` (plain JSON numbers are modelled as rationals). -/
structure Location where
  longitude : Rat
  latitude : Rat
  horizontal_accuracy : Option Rat
  live_period : Option Int
  heading : Option Int
  proximity_alert_radius : Option Int
deriving DecidableEq

/-- The closed enum of `MessageEntitySchema.type`. -/
inductive EntityType where
  | mention | hashtag | cashtag | bot_command | url | email | phone_number
  | bold | italic | underline | strikethrough | spoiler | code | pre
  | text_link | text_mention | custom_emoji
deriving DecidableEq

/-- `MessageEntitySchema`. -/
structure MessageEntity where
  type : EntityType
  offset : Int
  length : Int
  url : Option String
  user : Option User
  language : Option String
  custom_emoji_id : Option String
deriving DecidableEq

/-- The `web_app` sub-object of the keyboard button schemas. -/
structure WebAppInfo where
  url : String
deriving DecidableEq

/-- The `login_url` sub-object of `InlineKeyboardButtonSchema`. -/
structure LoginUrl where
  url : String
  forward_text : Option String
  bot_username : Option String
  request_write_access : Option Bool
deriving DecidableEq

/-- The `switch_inline_query_chosen_chat` sub-object of
`InlineKeyboardButtonSchema`. -/
structure SwitchInlineQueryChosenChat where
  query : Option String
  allow_user_chats : Option Bool
  allow_bot_chats : Option Bool
  allow_group_chats : Option Bool
  allow_channel_chats : Option Bool
deriving DecidableEq

/-- `InlineKeyboardButtonSchema`; `callback_game` is `z.object({})`, whose
inferred type carries no fields, modelled as `Unit`. -/
structure InlineKeyboardButton where
  text : String
  url : Option String
  callback_data : Option String
  web_app : Option WebAppInfo
  login_url : Option LoginUrl
  switch_inline_query : Option String
  switch_inline_query_current_chat : Option String
  switch_inline_query_chosen_chat : Option SwitchInlineQueryChosenChat
  callback_game : Option Unit
  pay : Option Bool
deriving DecidableEq

/-- `InlineKeyboardMarkupSchema`. -/
structure InlineKeyboardMarkup where
  inline_keyboard : List (List InlineKeyboardButton)
deriving DecidableEq

/-- The `request_users` sub-object of `KeyboardButtonSchema`. -/
structure KeyboardButtonRequestUsers where
  request_id : Int
  user_is_bot : Option Bool
  user_is_premium : Option Bool
  max_quantity : Option Int
  request_name : Option Bool
  request_username : Option Bool
  request_photo : Option Bool
deriving DecidableEq

/-- The `request_chat` sub-object of `KeyboardButtonSchema`; the two
administrator-rights fields are `z.record(z.string(), z.boolean())`,
modelled as association lists in object key order. -/
structure KeyboardButtonRequestChat where
  request_id : Int
  chat_is_channel : Bool
  chat_is_forum : Option Bool
  chat_has_username : Option Bool
  chat_is_created : Option Bool
  user_administrator_rights : Option (List (String × Bool))
  bot_administrator_rights : Option (List (String × Bool))
  bot_is_member : Option Bool
  request_title : Option Bool
  request_username : Option Bool
  request_photo : Option Bool
deriving DecidableEq

/-- The enum of the `request_poll.type` field of `KeyboardButtonSchema`. -/
inductive PollKind where
  | quiz | regular
deriving DecidableEq

/-- The `request_poll` sub-object of `KeyboardButtonSchema`. -/
structure KeyboardButtonPollType where
  type : Option PollKind
deriving DecidableEq

/-- `KeyboardButtonSchema`. -/
structure KeyboardButton where
  text : String
  request_users : Option KeyboardButtonRequestUsers
  request_chat : Option KeyboardButtonRequestChat
  request_contact : Option Bool
  request_location : Option Bool
  request_poll : Option KeyboardButtonPollType
  web_app : Option WebAppInfo
deriving DecidableEq

/-- `ReplyKeyboardMarkupSchema`. -/
structure ReplyKeyboardMarkup where
  keyboard : List (List KeyboardButton)
  is_persistent : Option Bool
  resize_keyboard : Option Bool
  one_time_keyboard : Option Bool
  input_field_placeholder : Option String
  selective : Option Bool
deriving DecidableEq

/-- `ReplyKeyboardRemoveSchema`; `remove_keyboard` is `z.literal(true)`, so
the parsed field is always `true`. -/
structure ReplyKeyboardRemove where
  remove_keyboard : Bool
  selective : Option Bool
deriving DecidableEq

/-- `ForceReplySchema`; `force_reply` is `z.literal(true)`. -/
structure ForceReply where
  force_reply : Bool
  input_field_placeholder : Option String
  selective : Option Bool
deriving DecidableEq

/-- `ReplyMarkupSchema`, the four-way union, tagged by which candidate of the
union matched. -/
inductive ReplyMarkup where
  | inline (m : InlineKeyboardMarkup)
  | keyboard (m : ReplyKeyboardMarkup)
  | removeKeyboard (m : ReplyKeyboardRemove)
  | forceReply (m : ForceReply)
deriving DecidableEq

mutual
/-- The `Message` interface backing `MessageSchema`; the self-referential
`reply_to_message` field lives in the mutual companion type `ReplyTo` so
that the recursion is structural. -/
inductive Message where
  | mk
    (message_id : Int)
    (message_thread_id : Option Int)
    («from» : Option User)
    (sender_chat : Option Chat)
    (date : Int)
    (chat : Chat)
    (forward_from : Option User)
    (forward_from_chat : Option Chat)
    (forward_from_message_id : Option Int)
    (forward_signature : Option String)
    (forward_sender_name : Option String)
    (forward_date : Option Int)
    (is_topic_message : Option Bool)
    (is_automatic_forward : Option Bool)
    (reply_to_message : ReplyTo)
    (via_bot : Option User)
    (edit_date : Option Int)
    (has_protected_content : Option Bool)
    (media_group_id : Option String)
    (author_signature : Option String)
    (text : Option String)
    (entities : Option (List MessageEntity))
    (caption : Option String)
    (caption_entities : Option (List MessageEntity))
    (photo : Option (List PhotoSize))
    (location : Option Location)
    (reply_markup : Option InlineKeyboardMarkup)

/-- The optional, recursive `reply_to_message` field of `Message`. -/
inductive ReplyTo where
  | noReply
  | reply (m : Message)
end

/-- `CallbackQuerySchema`. -/
structure CallbackQuery where
  id : String
  «from» : User
  message : Option Message
  inline_message_id : Option String
  chat_instance : String
  data : Option String
  game_short_name : Option String

/-- `UpdateSchema`. -/
structure Update where
  update_id : Int
  message : Option Message
  edited_message : Option Message
  channel_post : Option Message
  edited_channel_post : Option Message
  callback_query : Option CallbackQuery

/-! ## Parsers

Each Zod schema becomes a function `Json → Option α` returning `some` of the
typed value exactly when `Schema.parse` succeeds.  Zod's `z.object` strips
undeclared keys, treats a missing key as `undefined` (valid only for
`.optional()` fields) and rejects `null` for optional fields. -/

/-- `z.string()`. -/
def asStr : Json → Option String
  | .str s => some s
  | _ => none

/-- `z.string().max(n)` — Zod compares the JavaScript `length` (UTF-16 code
units) against `n`. -/
def asStrMax (n : Nat) : Json → Option String
  | .str s => if utf16Len s ≤ n then some s else none
  | _ => none

/-- `z.string().url()`. -/
def asUrlStr : Json → Option String
  | .str s => if jsURLValid s then some s else none
  | _ => none

/-- `z.boolean()`. -/
def asBool : Json → Option Bool
  | .bool b => some b
  | _ => none

/-- `z.literal(true)`. -/
def asTrueLit : Json → Option Bool
  | .bool true => some true
  | _ => none

/-- `z.number()`. -/
def asNum : Json → Option Rat
  | .num q => some q
  | _ => none

/-- `z.number().int()` — Zod's int check is `Number.isInteger`. -/
def asInt : Json → Option Int
  | .num q => if q.den = 1 then some q.num else none
  | _ => none

/-- Parses a required object field: absent or invalid fails. -/
def reqF {α : Type} (fs : JsonFields) (k : String) (p : Json → Option α) : Option α :=
  (jLookup fs k).bind p

/-- Processes the looked-up value of an `.optional()` field: an absent key
parses to `none`; a present value (including `null`) must satisfy the inner
parser. -/
def optProc {α : Type} (v : Option Json) (p : Json → Option α) : Option (Option α) :=
  match v with
  | none => some none
  | some v => (p v).map some

/-- Parses an `.optional()` object field. -/
def optF {α : Type} (fs : JsonFields) (k : String) (p : Json → Option α) :
    Option (Option α) :=
  optProc (jLookup fs k) p

/-- Element-wise parsing of a JSON array body. -/
def parseElems {α : Type} (p : Json → Option α) : JsonList → Option (List α)
  | .nil => some []
  | .cons x xs =>
    match p x, parseElems p xs with
    | some a, some l => some (a :: l)
    | _, _ => none

/-- `z.array(inner)`. -/
def asArr {α : Type} (p : Json → Option α) : Json → Option (List α)
  | .arr xs => parseElems p xs
  | _ => none

/-- Value-wise parsing of `z.record(z.string(), z.boolean())` fields. -/
def parseBoolFields : JsonFields → Option (List (String × Bool))
  | .nil => some []
  | .cons k v tl =>
    match asBool v, parseBoolFields tl with
    | some b, some l => some ((k, b) :: l)
    | _, _ => none

/-- `z.record(z.string(), z.boolean())`. -/
def asBoolRecord : Json → Option (List (String × Bool))
  | .obj fs => parseBoolFields fs
  | _ => none

/-- `z.object({})` (the `callback_game` field): accepts any object and keeps
no fields. -/
def asEmptyObj : Json → Option Unit
  | .obj _ => some ()
  | _ => none

/-- The enum check of `ChatSchema.type`. -/
def parseChatType (s : String) : Option ChatType :=
  if s = "private" then some .privateChat
  else if s = "group" then some .group
  else if s = "supergroup" then some .supergroup
  else if s = "channel" then some .channel
  else none

/-- `z.enum([...])` of `ChatSchema.type` as a JSON parser. -/
def asChatType : Json → Option ChatType
  | .str s => parseChatType s
  | _ => none

/-- The enum check of `MessageEntitySchema.type`. -/
def parseEntityType (s : String) : Option EntityType :=
  if s = "mention" then some .mention
  else if s = "hashtag" then some .hashtag
  else if s = "cashtag" then some .cashtag
  else if s = "bot_command" then some .bot_command
  else if s = "url" then some .url
  else if s = "email" then some .email
  else if s = "phone_number" then some .phone_number
  else if s = "bold" then some .bold
  else if s = "italic" then some .italic
  else if s = "underline" then some .underline
  else if s = "strikethrough" then some .strikethrough
  else if s = "spoiler" then some .spoiler
  else if s = "code" then some .code
  else if s = "pre" then some .pre
  else if s = "text_link" then some .text_link
  else if s = "text_mention" then some .text_mention
  else if s = "custom_emoji" then some .custom_emoji
  else none

/-- `z.enum([...])` of `MessageEntitySchema.type` as a JSON parser. -/
def asEntityType : Json → Option EntityType
  | .str s => parseEntityType s
  | _ => none

/-- The enum check of the `request_poll.type` field. -/
def parsePollKind (s : String) : Option PollKind :=
  if s = "quiz" then some .quiz
  else if s = "regular" then some .regular
  else none

/-- `z.enum(['quiz', 'regular'])` as a JSON parser. -/
def asPollKind : Json → Option PollKind
  | .str s => parsePollKind s
  | _ => none

/-- `UserSchema.parse`. -/
def parseUser : Json → Option User
  | .obj fs => do
    let id ← reqF fs "id" asInt
    let is_bot ← reqF fs "is_bot" asBool
    let first_name ← reqF fs "first_name" asStr
    let last_name ← optF fs "last_name" asStr
    let username ← optF fs "username" asStr
    let language_code ← optF fs "language_code" asStr
    let is_premium ← optF fs "is_premium" asBool
    let added_to_attachment_menu ← optF fs "added_to_attachment_menu" asBool
    let can_join_groups ← optF fs "can_join_groups" asBool
    let can_read_all_group_messages ← optF fs "can_read_all_group_messages" asBool
    let supports_inline_queries ← optF fs "supports_inline_queries" asBool
    pure ⟨id, is_bot, first_name, last_name, username, language_code, is_premium,
      added_to_attachment_menu, can_join_groups, can_read_all_group_messages,
      supports_inline_queries⟩
  | _ => none

/-- `ChatSchema.parse`. -/
def parseChat : Json → Option Chat
  | .obj fs => do
    let id ← reqF fs "id" asInt
    let type ← reqF fs "type" asChatType
    let title ← optF fs "title" asStr
    let username ← optF fs "username" asStr
    let first_name ← optF fs "first_name" asStr
    let last_name ← optF fs "last_name" asStr
    let is_forum ← optF fs "is_forum" asBool
    pure ⟨id, type, title, username, first_name, last_name, is_forum⟩
  | _ => none

/-- `PhotoSizeSchema.parse`. -/
def parsePhotoSize : Json → Option PhotoSize
  | .obj fs => do
    let file_id ← reqF fs "file_id" asStr
    let file_unique_id ← reqF fs "file_unique_id" asStr
    let width ← reqF fs "width" asInt
    let height ← reqF fs "height" asInt
    let file_size ← optF fs "file_size" asInt
    pure ⟨file_id, file_unique_id, width, height, file_size⟩
  | _ => none

/-- `LocationSchema.parse`. -/
def parseLocation : Json → Option Location
  | .obj fs => do
    let longitude ← reqF fs "longitude" asNum
    let latitude ← reqF fs "latitude" asNum
    let horizontal_accuracy ← optF fs "horizontal_accuracy" asNum
    let live_period ← optF fs "live_period" asInt
    let heading ← optF fs "heading" asInt
    let proximity_alert_radius ← optF fs "proximity_alert_radius" asInt
    pure ⟨longitude, latitude, horizontal_accuracy, live_period, heading,
      proximity_alert_radius⟩
  | _ => none

/-- `MessageEntitySchema.parse` (the lazily referenced `UserSchema` for the
`user` field is non-recursive, so the reference is direct here). -/
def parseMessageEntity : Json → Option MessageEntity
  | .obj fs => do
    let type ← reqF fs "type" asEntityType
    let offset ← reqF fs "offset" asInt
    let length ← reqF fs "length" asInt
    let url ← optF fs "url" asStr
    let user ← optF fs "user" parseUser
    let language ← optF fs "language" asStr
    let custom_emoji_id ← optF fs "custom_emoji_id" asStr
    pure ⟨type, offset, length, url, user, language, custom_emoji_id⟩
  | _ => none

/-- The `web_app` sub-schema `z.object({ url: z.string().url() })`. -/
def parseWebAppInfo : Json → Option WebAppInfo
  | .obj fs => do
    let url ← reqF fs "url" asUrlStr
    pure ⟨url⟩
  | _ => none

/-- The `login_url` sub-schema of `InlineKeyboardButtonSchema`. -/
def parseLoginUrl : Json → Option LoginUrl
  | .obj fs => do
    let url ← reqF fs "url" asUrlStr
    let forward_text ← optF fs "forward_text" asStr
    let bot_username ← optF fs "bot_username" asStr
    let request_write_access ← optF fs "request_write_access" asBool
    pure ⟨url, forward_text, bot_username, request_write_access⟩
  | _ => none

/-- The `switch_inline_query_chosen_chat` sub-schema. -/
def parseSwitchChosenChat : Json → Option SwitchInlineQueryChosenChat
  | .obj fs => do
    let query ← optF fs "query" asStr
    let allow_user_chats ← optF fs "allow_user_chats" asBool
    let allow_bot_chats ← optF fs "allow_bot_chats" asBool
    let allow_group_chats ← optF fs "allow_group_chats" asBool
    let allow_channel_chats ← optF fs "allow_channel_chats" asBool
    pure ⟨query, allow_user_chats, allow_bot_chats, allow_group_chats,
      allow_channel_chats⟩
  | _ => none

/-- `InlineKeyboardButtonSchema.parse`; `callback_data` is
`z.string().max(64)`. -/
def parseInlineKeyboardButton : Json → Option InlineKeyboardButton
  | .obj fs => do
    let text ← reqF fs "text" asStr
    let url ← optF fs "url" asStr
    let callback_data ← optF fs "callback_data" (asStrMax 64)
    let web_app ← optF fs "web_app" parseWebAppInfo
    let login_url ← optF fs "login_url" parseLoginUrl
    let switch_inline_query ← optF fs "switch_inline_query" asStr
    let switch_inline_query_current_chat ←
      optF fs "switch_inline_query_current_chat" asStr
    let switch_inline_query_chosen_chat ←
      optF fs "switch_inline_query_chosen_chat" parseSwitchChosenChat
    let callback_game ← optF fs "callback_game" asEmptyObj
    let pay ← optF fs "pay" asBool
    pure ⟨text, url, callback_data, web_app, login_url, switch_inline_query,
      switch_inline_query_current_chat, switch_inline_query_chosen_chat,
      callback_game, pay⟩
  | _ => none

/-- `InlineKeyboardMarkupSchema.parse`. -/
def parseInlineKeyboardMarkup : Json → Option InlineKeyboardMarkup
  | .obj fs => do
    let inline_keyboard ←
      reqF fs "inline_keyboard" (asArr (asArr parseInlineKeyboardButton))
    pure ⟨inline_keyboard⟩
  | _ => none

/-- The `request_users` sub-schema of `KeyboardButtonSchema`. -/
def parseRequestUsers : Json → Option KeyboardButtonRequestUsers
  | .obj fs => do
    let request_id ← reqF fs "request_id" asInt
    let user_is_bot ← optF fs "user_is_bot" asBool
    let user_is_premium ← optF fs "user_is_premium" asBool
    let max_quantity ← optF fs "max_quantity" asInt
    let request_name ← optF fs "request_name" asBool
    let request_username ← optF fs "request_username" asBool
    let request_photo ← optF fs "request_photo" asBool
    pure ⟨request_id, user_is_bot, user_is_premium, max_quantity, request_name,
      request_username, request_photo⟩
  | _ => none

/-- The `request_chat` sub-schema of `KeyboardButtonSchema`. -/
def parseRequestChat : Json → Option KeyboardButtonRequestChat
  | .obj fs => do
    let request_id ← reqF fs "request_id" asInt
    let chat_is_channel ← reqF fs "chat_is_channel" asBool
    let chat_is_forum ← optF fs "chat_is_forum" asBool
    let chat_has_username ← optF fs "chat_has_username" asBool
    let chat_is_created ← optF fs "chat_is_created" asBool
    let user_administrator_rights ← optF fs "user_administrator_rights" asBoolRecord
    let bot_administrator_rights ← optF fs "bot_administrator_rights" asBoolRecord
    let bot_is_member ← optF fs "bot_is_member" asBool
    let request_title ← optF fs "request_title" asBool
    let request_username ← optF fs "request_username" asBool
    let request_photo ← optF fs "request_photo" asBool
    pure ⟨request_id, chat_is_channel, chat_is_forum, chat_has_username,
      chat_is_created, user_administrator_rights, bot_administrator_rights,
      bot_is_member, request_title, request_username, request_photo⟩
  | _ => none

/-- The `request_poll` sub-schema of `KeyboardButtonSchema`. -/
def parsePollTypeObj : Json → Option KeyboardButtonPollType
  | .obj fs => do
    let type ← optF fs "type" asPollKind
    pure ⟨type⟩
  | _ => none

/-- `KeyboardButtonSchema.parse`. -/
def parseKeyboardButton : Json → Option KeyboardButton
  | .obj fs => do
    let text ← reqF fs "text" asStr
    let request_users ← optF fs "request_users" parseRequestUsers
    let request_chat ← optF fs "request_chat" parseRequestChat
    let request_contact ← optF fs "request_contact" asBool
    let request_location ← optF fs "request_location" asBool
    let request_poll ← optF fs "request_poll" parsePollTypeObj
    let web_app ← optF fs "web_app" parseWebAppInfo
    pure ⟨text, request_users, request_chat, request_contact, request_location,
      request_poll, web_app⟩
  | _ => none

/-- `ReplyKeyboardMarkupSchema.parse`. -/
def parseReplyKeyboardMarkup : Json → Option ReplyKeyboardMarkup
  | .obj fs => do
    let keyboard ← reqF fs "keyboard" (asArr (asArr parseKeyboardButton))
    let is_persistent ← optF fs "is_persistent" asBool
    let resize_keyboard ← optF fs "resize_keyboard" asBool
    let one_time_keyboard ← optF fs "one_time_keyboard" asBool
    let input_field_placeholder ← optF fs "input_field_placeholder" (asStrMax 64)
    let selective ← optF fs "selective" asBool
    pure ⟨keyboard, is_persistent, resize_keyboard, one_time_keyboard,
      input_field_placeholder, selective⟩
  | _ => none

/-- `ReplyKeyboardRemoveSchema.parse`. -/
def parseReplyKeyboardRemove : Json → Option ReplyKeyboardRemove
  | .obj fs => do
    let remove_keyboard ← reqF fs "remove_keyboard" asTrueLit
    let selective ← optF fs "selective" asBool
    pure ⟨remove_keyboard, selective⟩
  | _ => none

/-- `ForceReplySchema.parse`. -/
def parseForceReply : Json → Option ForceReply
  | .obj fs => do
    let force_reply ← reqF fs "force_reply" asTrueLit
    let input_field_placeholder ← optF fs "input_field_placeholder" (asStrMax 64)
    let selective ← optF fs "selective" asBool
    pure ⟨force_reply, input_field_placeholder, selective⟩
  | _ => none

/-- `ReplyMarkupSchema.parse`: `z.union` tries the candidates in declaration
order — inline keyboard, reply keyboard, remove-keyboard, force-reply — and
returns the first success. -/
def parseReplyMarkup (j : Json) : Option ReplyMarkup :=
  match parseInlineKeyboardMarkup j with
  | some m => some (.inline m)
  | none =>
    match parseReplyKeyboardMarkup j with
    | some m => some (.keyboard m)
    | none =>
      match parseReplyKeyboardRemove j with
      | some m => some (.removeKeyboard m)
      | none =>
        match parseForceReply j with
        | some m => some (.forceReply m)
        | none => none


/-- Fields `message_id` through `forward_from_message_id` of `MessageSchema`
(grouped to keep compiled code small). -/
structure MsgPartA where
  message_id : Int
  message_thread_id : Option Int
  sender : Option User
  sender_chat : Option Chat
  date : Int
  chat : Chat
  forward_from : Option User
  forward_from_chat : Option Chat
  forward_from_message_id : Option Int

/-- Fields `forward_signature` through `media_group_id` of `MessageSchema`. -/
structure MsgPartB where
  forward_signature : Option String
  forward_sender_name : Option String
  forward_date : Option Int
  is_topic_message : Option Bool
  is_automatic_forward : Option Bool
  via_bot : Option User
  edit_date : Option Int
  has_protected_content : Option Bool
  media_group_id : Option String

/-- Fields `author_signature` through `reply_markup` of `MessageSchema`. -/
structure MsgPartC where
  author_signature : Option String
  text : Option String
  entities : Option (List MessageEntity)
  caption : Option String
  caption_entities : Option (List MessageEntity)
  photo : Option (List PhotoSize)
  location : Option Location
  reply_markup : Option InlineKeyboardMarkup

/-- Parses the `MsgPartA` group of `MessageSchema` keys. -/
def parseMsgPartA (fs : JsonFields) : Option MsgPartA := do
  let message_id ← reqF fs "message_id" asInt
  let message_thread_id ← optF fs "message_thread_id" asInt
  let sender ← optF fs "from" parseUser
  let sender_chat ← optF fs "sender_chat" parseChat
  let date ← reqF fs "date" asInt
  let chat ← reqF fs "chat" parseChat
  let forward_from ← optF fs "forward_from" parseUser
  let forward_from_chat ← optF fs "forward_from_chat" parseChat
  let forward_from_message_id ← optF fs "forward_from_message_id" asInt
  pure ⟨message_id, message_thread_id, sender, sender_chat, date, chat,
    forward_from, forward_from_chat, forward_from_message_id⟩

/-- Parses the `MsgPartB` group of `MessageSchema` keys. -/
def parseMsgPartB (fs : JsonFields) : Option MsgPartB := do
  let forward_signature ← optF fs "forward_signature" asStr
  let forward_sender_name ← optF fs "forward_sender_name" asStr
  let forward_date ← optF fs "forward_date" asInt
  let is_topic_message ← optF fs "is_topic_message" asBool
  let is_automatic_forward ← optF fs "is_automatic_forward" asBool
  let via_bot ← optF fs "via_bot" parseUser
  let edit_date ← optF fs "edit_date" asInt
  let has_protected_content ← optF fs "has_protected_content" asBool
  let media_group_id ← optF fs "media_group_id" asStr
  pure ⟨forward_signature, forward_sender_name, forward_date, is_topic_message,
    is_automatic_forward, via_bot, edit_date, has_protected_content,
    media_group_id⟩

/-- Parses the `MsgPartC` group of `MessageSchema` keys. -/
def parseMsgPartC (fs : JsonFields) : Option MsgPartC := do
  let author_signature ← optF fs "author_signature" asStr
  let text ← optF fs "text" asStr
  let entities ← optF fs "entities" (asArr parseMessageEntity)
  let caption ← optF fs "caption" asStr
  let caption_entities ← optF fs "caption_entities" (asArr parseMessageEntity)
  let photo ← optF fs "photo" (asArr parsePhotoSize)
  let location ← optF fs "location" parseLocation
  let reply_markup ← optF fs "reply_markup" parseInlineKeyboardMarkup
  pure ⟨author_signature, text, entities, caption, caption_entities, photo,
    location, reply_markup⟩

/-- All declared-key checks of `MessageSchema.parse` other than the recursive
`reply_to_message` field, parameterized by that field's already-parsed
value. -/
def buildMessage (fs : JsonFields) (r : ReplyTo) : Option Message := do
  let a ← parseMsgPartA fs
  let b ← parseMsgPartB fs
  let c ← parseMsgPartC fs
  pure (.mk a.message_id a.message_thread_id a.sender a.sender_chat a.date
    a.chat a.forward_from a.forward_from_chat a.forward_from_message_id
    b.forward_signature b.forward_sender_name b.forward_date
    b.is_topic_message b.is_automatic_forward r b.via_bot b.edit_date
    b.has_protected_content b.media_group_id c.author_signature c.text
    c.entities c.caption c.caption_entities c.photo c.location c.reply_markup)

mutual
/-- `MessageSchema.parse`.  The schema's `z.lazy(() => MessageSchema)` on
`reply_to_message` defers the self-reference to validation time; here the
whole validator is one structurally recursive function. -/
def parseMessage : Json → Option Message
  | .obj fs =>
    (match parseReplyField fs with
     | none => none
     | some r => buildMessage fs r)
  | _ => none

/-- Resolves the `reply_to_message` field of a message object: scans the
fields for the key; absence yields `ReplyTo.noReply`, presence requires the
value to parse as a `Message` itself. -/
def parseReplyField : JsonFields → Option ReplyTo
  | .nil => some .noReply
  | .cons k v tl =>
    if k = "reply_to_message" then
      (match parseMessage v with
       | none => none
       | some m => some (.reply m))
    else parseReplyField tl
end

/-- `CallbackQuerySchema.parse`. -/
def parseCallbackQuery : Json → Option CallbackQuery
  | .obj fs => do
    let id ← reqF fs "id" asStr
    let sender ← reqF fs "from" parseUser
    let message ← optF fs "message" parseMessage
    let inline_message_id ← optF fs "inline_message_id" asStr
    let chat_instance ← reqF fs "chat_instance" asStr
    let data ← optF fs "data" asStr
    let game_short_name ← optF fs "game_short_name" asStr
    pure ⟨id, sender, message, inline_message_id, chat_instance, data,
      game_short_name⟩
  | _ => none

/-- `UpdateSchema.parse`. -/
def parseUpdate : Json → Option Update
  | .obj fs => do
    let update_id ← reqF fs "update_id" asInt
    let message ← optF fs "message" parseMessage
    let edited_message ← optF fs "edited_message" parseMessage
    let channel_post ← optF fs "channel_post" parseMessage
    let edited_channel_post ← optF fs "edited_channel_post" parseMessage
    let callback_query ← optF fs "callback_query" parseCallbackQuery
    pure ⟨update_id, message, edited_message, channel_post, edited_channel_post,
      callback_query⟩
  | _ => none

/-! ## Canonical payload encoders

For the round-trip properties, every typed value is mapped to its canonical
JSON payload: fields in schema declaration order, absent optional fields
omitted (not emitted as `null`). -/

/-- A one-field segment for a required field. -/
def jreq (k : String) (j : Json) : JsonFields := .cons k j .nil

/-- A segment for an optional field: empty when the value is absent. -/
def jopt {α : Type} (k : String) (f : α → Json) : Option α → JsonFields
  | none => .nil
  | some x => .cons k (f x) .nil

/-- Concatenates field segments. -/
def jfOfList : List JsonFields → JsonFields
  | [] => .nil
  | x :: xs => jfAppend x (jfOfList xs)

/-- JSON list of already-encoded elements. -/
def jlistOf : List Json → JsonList
  | [] => .nil
  | x :: xs => .cons x (jlistOf xs)

/-- Integer encoded as a JSON number. -/
def encInt (i : Int) : Json := .num (i : Rat)

/-- Array of encoded elements. -/
def encArr {α : Type} (f : α → Json) (l : List α) : Json :=
  .arr (jlistOf (l.map f))

/-- Canonical string of a `ChatSchema.type` value. -/
def encChatType : ChatType → String
  | .privateChat => "private"
  | .group => "group"
  | .supergroup => "supergroup"
  | .channel => "channel"

/-- Canonical string of a `MessageEntitySchema.type` value. -/
def encEntityType : EntityType → String
  | .mention => "mention"
  | .hashtag => "hashtag"
  | .cashtag => "cashtag"
  | .bot_command => "bot_command"
  | .url => "url"
  | .email => "email"
  | .phone_number => "phone_number"
  | .bold => "bold"
  | .italic => "italic"
  | .underline => "underline"
  | .strikethrough => "strikethrough"
  | .spoiler => "spoiler"
  | .code => "code"
  | .pre => "pre"
  | .text_link => "text_link"
  | .text_mention => "text_mention"
  | .custom_emoji => "custom_emoji"

/-- Canonical string of a `request_poll.type` value. -/
def encPollKind : PollKind → String
  | .quiz => "quiz"
  | .regular => "regular"

/-- Canonical payload of a `User`. -/
def encUser (u : User) : Json :=
  .obj (jfOfList
    [ jreq "id" (encInt u.id),
      jreq "is_bot" (.bool u.is_bot),
      jreq "first_name" (.str u.first_name),
      jopt "last_name" Json.str u.last_name,
      jopt "username" Json.str u.username,
      jopt "language_code" Json.str u.language_code,
      jopt "is_premium" Json.bool u.is_premium,
      jopt "added_to_attachment_menu" Json.bool u.added_to_attachment_menu,
      jopt "can_join_groups" Json.bool u.can_join_groups,
      jopt "can_read_all_group_messages" Json.bool u.can_read_all_group_messages,
      jopt "supports_inline_queries" Json.bool u.supports_inline_queries ])

/-- Canonical payload of a `Chat`. -/
def encChat (c : Chat) : Json :=
  .obj (jfOfList
    [ jreq "id" (encInt c.id),
      jreq "type" (.str (encChatType c.type)),
      jopt "title" Json.str c.title,
      jopt "username" Json.str c.username,
      jopt "first_name" Json.str c.first_name,
      jopt "last_name" Json.str c.last_name,
      jopt "is_forum" Json.bool c.is_forum ])

/-- Canonical payload of a `PhotoSize`. -/
def encPhotoSize (p : PhotoSize) : Json :=
  .obj (jfOfList
    [ jreq "file_id" (.str p.file_id),
      jreq "file_unique_id" (.str p.file_unique_id),
      jreq "width" (encInt p.width),
      jreq "height" (encInt p.height),
      jopt "file_size" encInt p.file_size ])

/-- Canonical payload of a `Location`. -/
def encLocation (l : Location) : Json :=
  .obj (jfOfList
    [ jreq "longitude" (.num l.longitude),
      jreq "latitude" (.num l.latitude),
      jopt "horizontal_accuracy" Json.num l.horizontal_accuracy,
      jopt "live_period" encInt l.live_period,
      jopt "heading" encInt l.heading,
      jopt "proximity_alert_radius" encInt l.proximity_alert_radius ])

/-- Canonical payload of a `MessageEntity`. -/
def encMessageEntity (e : MessageEntity) : Json :=
  .obj (jfOfList
    [ jreq "type" (.str (encEntityType e.type)),
      jreq "offset" (encInt e.offset),
      jreq "length" (encInt e.length),
      jopt "url" Json.str e.url,
      jopt "user" encUser e.user,
      jopt "language" Json.str e.language,
      jopt "custom_emoji_id" Json.str e.custom_emoji_id ])

/-- Canonical payload of a `WebAppInfo`. -/
def encWebAppInfo (w : WebAppInfo) : Json :=
  .obj (jreq "url" (.str w.url))

/-- Canonical payload of a `LoginUrl`. -/
def encLoginUrl (l : LoginUrl) : Json :=
  .obj (jfOfList
    [ jreq "url" (.str l.url),
      jopt "forward_text" Json.str l.forward_text,
      jopt "bot_username" Json.str l.bot_username,
      jopt "request_write_access" Json.bool l.request_write_access ])

/-- Canonical payload of a `SwitchInlineQueryChosenChat`. -/
def encSwitchChosenChat (s : SwitchInlineQueryChosenChat) : Json :=
  .obj (jfOfList
    [ jopt "query" Json.str s.query,
      jopt "allow_user_chats" Json.bool s.allow_user_chats,
      jopt "allow_bot_chats" Json.bool s.allow_bot_chats,
      jopt "allow_group_chats" Json.bool s.allow_group_chats,
      jopt "allow_channel_chats" Json.bool s.allow_channel_chats ])

/-- Canonical payload of an `InlineKeyboardButton` (the empty `callback_game`
object encodes as `{}`). -/
def encInlineKeyboardButton (b : InlineKeyboardButton) : Json :=
  .obj (jfOfList
    [ jreq "text" (.str b.text),
      jopt "url" Json.str b.url,
      jopt "callback_data" Json.str b.callback_data,
      jopt "web_app" encWebAppInfo b.web_app,
      jopt "login_url" encLoginUrl b.login_url,
      jopt "switch_inline_query" Json.str b.switch_inline_query,
      jopt "switch_inline_query_current_chat" Json.str
        b.switch_inline_query_current_chat,
      jopt "switch_inline_query_chosen_chat" encSwitchChosenChat
        b.switch_inline_query_chosen_chat,
      jopt "callback_game" (fun _ => Json.obj .nil) b.callback_game,
      jopt "pay" Json.bool b.pay ])

/-- Canonical payload of an `InlineKeyboardMarkup`. -/
def encInlineKeyboardMarkup (m : InlineKeyboardMarkup) : Json :=
  .obj (jreq "inline_keyboard"
    (encArr (encArr encInlineKeyboardButton) m.inline_keyboard))

/-- Encodes a boolean record (`z.record(z.string(), z.boolean())` value). -/
def encBoolFields : List (String × Bool) → JsonFields
  | [] => .nil
  | (k, b) :: tl => .cons k (.bool b) (encBoolFields tl)

/-- Canonical payload of a boolean record. -/
def encBoolRecord (l : List (String × Bool)) : Json := .obj (encBoolFields l)

/-- Canonical payload of a `KeyboardButtonRequestUsers`. -/
def encRequestUsers (r : KeyboardButtonRequestUsers) : Json :=
  .obj (jfOfList
    [ jreq "request_id" (encInt r.request_id),
      jopt "user_is_bot" Json.bool r.user_is_bot,
      jopt "user_is_premium" Json.bool r.user_is_premium,
      jopt "max_quantity" encInt r.max_quantity,
      jopt "request_name" Json.bool r.request_name,
      jopt "request_username" Json.bool r.request_username,
      jopt "request_photo" Json.bool r.request_photo ])

/-- Canonical payload of a `KeyboardButtonRequestChat`. -/
def encRequestChat (r : KeyboardButtonRequestChat) : Json :=
  .obj (jfOfList
    [ jreq "request_id" (encInt r.request_id),
      jreq "chat_is_channel" (.bool r.chat_is_channel),
      jopt "chat_is_forum" Json.bool r.chat_is_forum,
      jopt "chat_has_username" Json.bool r.chat_has_username,
      jopt "chat_is_created" Json.bool r.chat_is_created,
      jopt "user_administrator_rights" encBoolRecord r.user_administrator_rights,
      jopt "bot_administrator_rights" encBoolRecord r.bot_administrator_rights,
      jopt "bot_is_member" Json.bool r.bot_is_member,
      jopt "request_title" Json.bool r.request_title,
      jopt "request_username" Json.bool r.request_username,
      jopt "request_photo" Json.bool r.request_photo ])

/-- Canonical payload of a `KeyboardButtonPollType`. -/
def encPollTypeObj (p : KeyboardButtonPollType) : Json :=
  .obj (jopt "type" (fun k => Json.str (encPollKind k)) p.type)

/-- Canonical payload of a `KeyboardButton`. -/
def encKeyboardButton (b : KeyboardButton) : Json :=
  .obj (jfOfList
    [ jreq "text" (.str b.text),
      jopt "request_users" encRequestUsers b.request_users,
      jopt "request_chat" encRequestChat b.request_chat,
      jopt "request_contact" Json.bool b.request_contact,
      jopt "request_location" Json.bool b.request_location,
      jopt "request_poll" encPollTypeObj b.request_poll,
      jopt "web_app" encWebAppInfo b.web_app ])

/-- Canonical payload of a `ReplyKeyboardMarkup`. -/
def encReplyKeyboardMarkup (m : ReplyKeyboardMarkup) : Json :=
  .obj (jfOfList
    [ jreq "keyboard" (encArr (encArr encKeyboardButton) m.keyboard),
      jopt "is_persistent" Json.bool m.is_persistent,
      jopt "resize_keyboard" Json.bool m.resize_keyboard,
      jopt "one_time_keyboard" Json.bool m.one_time_keyboard,
      jopt "input_field_placeholder" Json.str m.input_field_placeholder,
      jopt "selective" Json.bool m.selective ])

/-- Canonical payload of a `ReplyKeyboardRemove`. -/
def encReplyKeyboardRemove (m : ReplyKeyboardRemove) : Json :=
  .obj (jfOfList
    [ jreq "remove_keyboard" (.bool m.remove_keyboard),
      jopt "selective" Json.bool m.selective ])

/-- Canonical payload of a `ForceReply`. -/
def encForceReply (m : ForceReply) : Json :=
  .obj (jfOfList
    [ jreq "force_reply" (.bool m.force_reply),
      jopt "input_field_placeholder" Json.str m.input_field_placeholder,
      jopt "selective" Json.bool m.selective ])

/-- Canonical payload of a `ReplyMarkup` union value. -/
def encReplyMarkup : ReplyMarkup → Json
  | .inline m => encInlineKeyboardMarkup m
  | .keyboard m => encReplyKeyboardMarkup m
  | .removeKeyboard m => encReplyKeyboardRemove m
  | .forceReply m => encForceReply m

/-- The `MessageSchema` field segments before `reply_to_message`. -/
def msgFieldsPre (message_id : Int) (message_thread_id : Option Int)
    (sender : Option User) (sender_chat : Option Chat) (date : Int)
    (chat : Chat) (forward_from : Option User)
    (forward_from_chat : Option Chat) (forward_from_message_id : Option Int)
    (forward_signature : Option String) (forward_sender_name : Option String)
    (forward_date : Option Int) (is_topic_message : Option Bool)
    (is_automatic_forward : Option Bool) : JsonFields :=
  jfOfList
    [ jreq "message_id" (encInt message_id),
      jopt "message_thread_id" encInt message_thread_id,
      jopt "from" encUser sender,
      jopt "sender_chat" encChat sender_chat,
      jreq "date" (encInt date),
      jreq "chat" (encChat chat),
      jopt "forward_from" encUser forward_from,
      jopt "forward_from_chat" encChat forward_from_chat,
      jopt "forward_from_message_id" encInt forward_from_message_id,
      jopt "forward_signature" Json.str forward_signature,
      jopt "forward_sender_name" Json.str forward_sender_name,
      jopt "forward_date" encInt forward_date,
      jopt "is_topic_message" Json.bool is_topic_message,
      jopt "is_automatic_forward" Json.bool is_automatic_forward ]

/-- The `MessageSchema` field segments after `reply_to_message`. -/
def msgFieldsPost (via_bot : Option User) (edit_date : Option Int)
    (has_protected_content : Option Bool) (media_group_id : Option String)
    (author_signature : Option String) (text : Option String)
    (entities : Option (List MessageEntity)) (caption : Option String)
    (caption_entities : Option (List MessageEntity))
    (photo : Option (List PhotoSize)) (location : Option Location)
    (reply_markup : Option InlineKeyboardMarkup) : JsonFields :=
  jfOfList
    [ jopt "via_bot" encUser via_bot,
      jopt "edit_date" encInt edit_date,
      jopt "has_protected_content" Json.bool has_protected_content,
      jopt "media_group_id" Json.str media_group_id,
      jopt "author_signature" Json.str author_signature,
      jopt "text" Json.str text,
      jopt "entities" (encArr encMessageEntity) entities,
      jopt "caption" Json.str caption,
      jopt "caption_entities" (encArr encMessageEntity) caption_entities,
      jopt "photo" (encArr encPhotoSize) photo,
      jopt "location" encLocation location,
      jopt "reply_markup" encInlineKeyboardMarkup reply_markup ]

mutual
/-- Canonical payload of a `Message` (fields in schema declaration order,
absent optional fields omitted). -/
def encMessage : Message → Json
  | .mk message_id message_thread_id sender sender_chat date chat forward_from
      forward_from_chat forward_from_message_id forward_signature
      forward_sender_name forward_date is_topic_message is_automatic_forward
      reply_to_message via_bot edit_date has_protected_content media_group_id
      author_signature text entities caption caption_entities photo location
      reply_markup =>
    .obj (jfAppend
      (msgFieldsPre message_id message_thread_id sender sender_chat date chat
        forward_from forward_from_chat forward_from_message_id
        forward_signature forward_sender_name forward_date is_topic_message
        is_automatic_forward)
      (jfAppend (encReplySeg reply_to_message)
        (msgFieldsPost via_bot edit_date has_protected_content media_group_id
          author_signature text entities caption caption_entities photo
          location reply_markup)))

/-- The canonical segment of the `reply_to_message` field. -/
def encReplySeg : ReplyTo → JsonFields
  | .noReply => .nil
  | .reply m => .cons "reply_to_message" (encMessage m) .nil
end

/-- Canonical payload of a `CallbackQuery`. -/
def encCallbackQuery (q : CallbackQuery) : Json :=
  .obj (jfOfList
    [ jreq "id" (.str q.id),
      jreq "from" (encUser q.«from»),
      jopt "message" encMessage q.message,
      jopt "inline_message_id" Json.str q.inline_message_id,
      jreq "chat_instance" (.str q.chat_instance),
      jopt "data" Json.str q.data,
      jopt "game_short_name" Json.str q.game_short_name ])

/-- Canonical payload of an `Update`. -/
def encUpdate (u : Update) : Json :=
  .obj (jfOfList
    [ jreq "update_id" (encInt u.update_id),
      jopt "message" encMessage u.message,
      jopt "edited_message" encMessage u.edited_message,
      jopt "channel_post" encMessage u.channel_post,
      jopt "edited_channel_post" encMessage u.edited_channel_post,
      jopt "callback_query" encCallbackQuery u.callback_query ])

/-! ## Validity

A typed value is a *valid payload* when it also satisfies the non-structural
string constraints of its schema (`z.string().max(64)` on `callback_data`
— Zod checks the UTF-16 length — and `z.string().url()` on the button URL
sub-objects).  These are the only constraints of the `UpdateSchema` graph
beyond what the types already enforce. -/

/-- The `z.string().max(64)` and `z.string().url()` constraints of
`InlineKeyboardButtonSchema`. -/
def btnValid (b : InlineKeyboardButton) : Bool :=
  (b.callback_data.all fun s => utf16Len s ≤ 64) &&
  (b.web_app.all fun w => jsURLValid w.url) &&
  (b.login_url.all fun l => jsURLValid l.url)

/-- Validity of all buttons of an inline keyboard. -/
def markupValid (m : InlineKeyboardMarkup) : Bool :=
  m.inline_keyboard.all fun row => row.all btnValid

mutual
/-- Validity of every inline keyboard reachable from a `Message`. -/
def msgValid : Message → Bool
  | .mk _ _ _ _ _ _ _ _ _ _ _ _ _ _ reply_to_message _ _ _ _ _ _ _ _ _ _ _
      reply_markup =>
    replyValid reply_to_message && reply_markup.all markupValid

/-- Validity of an optional reply message. -/
def replyValid : ReplyTo → Bool
  | .noReply => true
  | .reply m => msgValid m
end

/-- Validity of every inline keyboard reachable from a `CallbackQuery`. -/
def cbqValid (q : CallbackQuery) : Bool :=
  q.message.all msgValid

/-- Validity of every inline keyboard reachable from an `Update`. -/
def updValid (u : Update) : Bool :=
  u.message.all msgValid && u.edited_message.all msgValid &&
  u.channel_post.all msgValid && u.edited_channel_post.all msgValid &&
  u.callback_query.all cbqValid

/-! ## Round-trip infrastructure -/

attribute [simp] jLookup_append

@[simp] theorem jor_none_right (v : Option Json) : jor v none = v := by
  cases v <;> rfl

@[simp] theorem jLookup_nil (key : String) : jLookup .nil key = none := rfl

@[simp] theorem jLookup_cons (k : String) (v : Json) (tl : JsonFields)
    (key : String) :
    jLookup (.cons k v tl) key = if k = key then some v else jLookup tl key :=
  rfl

@[simp] theorem jfOfList_nil : jfOfList [] = .nil := rfl

@[simp] theorem jfOfList_cons (x : JsonFields) (xs : List JsonFields) :
    jfOfList (x :: xs) = jfAppend x (jfOfList xs) := rfl

@[simp] theorem jLookup_jreq (k : String) (j : Json) (key : String) :
    jLookup (jreq k j) key = if k = key then some j else none := rfl

@[simp] theorem jLookup_jopt {α : Type} (k : String) (f : α → Json)
    (o : Option α) (key : String) :
    jLookup (jopt k f o) key = if k = key then o.map f else none := by
  cases o <;> simp [jopt]

@[simp] theorem optProc_none {α : Type} (p : Json → Option α) :
    optProc none p = some none := rfl

@[simp] theorem optProc_some {α : Type} (v : Json) (p : Json → Option α) :
    optProc (some v) p = (p v).map some := rfl

/-- An encoded optional field parses back to itself when the element parser
inverts the element encoder on the value at hand. -/
theorem optProc_map {α : Type} {p : Json → Option α} {f : α → Json}
    (o : Option α) (h : ∀ x, o = some x → p (f x) = some x) :
    optProc (o.map f) p = some o := by
  cases o with
  | none => rfl
  | some x => simp [h x rfl]

@[simp] theorem asStr_str (s : String) : asStr (.str s) = some s := rfl

@[simp] theorem asBool_bool (b : Bool) : asBool (.bool b) = some b := rfl

@[simp] theorem asNum_num (q : Rat) : asNum (.num q) = some q := rfl

@[simp] theorem asTrueLit_true : asTrueLit (.bool true) = some true := rfl

@[simp] theorem asInt_encInt (i : Int) : asInt (encInt i) = some i := by
  simp [asInt, encInt, Rat.den_intCast, Rat.num_intCast]

@[simp] theorem asEmptyObj_enc : asEmptyObj (Json.obj .nil) = some () := rfl

/-- An encoded optional `z.object({})` field parses back to itself. -/
@[simp] theorem optProc_unit_enc (o : Option Unit) :
    optProc (o.map fun _ => Json.obj .nil) asEmptyObj = some o := by
  cases o with
  | none => rfl
  | some u => cases u; rfl

@[simp] theorem asChatType_enc (t : ChatType) :
    asChatType (.str (encChatType t)) = some t := by
  cases t <;> rfl

@[simp] theorem asEntityType_enc (t : EntityType) :
    asEntityType (.str (encEntityType t)) = some t := by
  cases t <;> rfl

@[simp] theorem asPollKind_enc (k : PollKind) :
    asPollKind (.str (encPollKind k)) = some k := by
  cases k <;> rfl

theorem asStrMax_le {n : Nat} {s : String} (h : utf16Len s ≤ n) :
    asStrMax n (.str s) = some s := by
  simp [asStrMax, h]

theorem asUrlStr_valid {s : String} (h : jsURLValid s = true) :
    asUrlStr (.str s) = some s := by
  simp [asUrlStr, h]

theorem parseElems_enc {α : Type} {p : Json → Option α} {f : α → Json}
    (l : List α) (h : ∀ x ∈ l, p (f x) = some x) :
    parseElems p (jlistOf (l.map f)) = some l := by
  induction l with
  | nil => rfl
  | cons x xs ih =>
    simp only [List.map_cons, jlistOf, parseElems, h x (by simp)]
    rw [ih (fun y hy => h y (by simp [hy]))]

theorem asArr_enc {α : Type} {p : Json → Option α} {f : α → Json}
    (l : List α) (h : ∀ x ∈ l, p (f x) = some x) :
    asArr p (encArr f l) = some l := by
  simp [asArr, encArr, parseElems_enc l h]

theorem parseBoolFields_enc (l : List (String × Bool)) :
    parseBoolFields (encBoolFields l) = some l := by
  induction l with
  | nil => rfl
  | cons x xs ih => simp [encBoolFields, parseBoolFields, asBool, ih]

@[simp] theorem asBoolRecord_enc (l : List (String × Bool)) :
    asBoolRecord (encBoolRecord l) = some l := by
  simp [asBoolRecord, encBoolRecord, parseBoolFields_enc]

@[simp] theorem parseUser_enc (u : User) : parseUser (encUser u) = some u := by
  cases u
  simp [parseUser, encUser, reqF, optF, optProc_map, Option.bind]

@[simp] theorem parseChat_enc (c : Chat) : parseChat (encChat c) = some c := by
  cases c
  simp [parseChat, encChat, reqF, optF, optProc_map, Option.bind]

@[simp] theorem parsePhotoSize_enc (p : PhotoSize) :
    parsePhotoSize (encPhotoSize p) = some p := by
  cases p
  simp [parsePhotoSize, encPhotoSize, reqF, optF, optProc_map, Option.bind]

@[simp] theorem parseLocation_enc (l : Location) :
    parseLocation (encLocation l) = some l := by
  cases l
  simp [parseLocation, encLocation, reqF, optF, optProc_map, Option.bind]

@[simp] theorem parseMessageEntity_enc (e : MessageEntity) :
    parseMessageEntity (encMessageEntity e) = some e := by
  cases e
  simp [parseMessageEntity, encMessageEntity, reqF, optF, optProc_map,
    Option.bind]

theorem parseWebAppInfo_enc (w : WebAppInfo) (h : jsURLValid w.url = true) :
    parseWebAppInfo (encWebAppInfo w) = some w := by
  cases w
  simp [parseWebAppInfo, encWebAppInfo, reqF, asUrlStr_valid h, Option.bind]

theorem parseLoginUrl_enc (l : LoginUrl) (h : jsURLValid l.url = true) :
    parseLoginUrl (encLoginUrl l) = some l := by
  cases l
  simp [parseLoginUrl, encLoginUrl, reqF, optF, optProc_map,
    asUrlStr_valid h, Option.bind]

@[simp] theorem parseSwitchChosenChat_enc (s : SwitchInlineQueryChosenChat) :
    parseSwitchChosenChat (encSwitchChosenChat s) = some s := by
  cases s
  simp [parseSwitchChosenChat, encSwitchChosenChat, reqF, optF, optProc_map,
    Option.bind]

/-- Converts an `Option.all` fact into its pointwise form. -/
theorem opt_all_prop {α : Type} {o : Option α} {q : α → Bool}
    (h : o.all q = true) : ∀ x, o = some x → q x = true := by
  cases o with
  | none => intro x hx; cases hx
  | some y => intro x hx; cases hx; simpa [Option.all] using h

theorem parseInlineKeyboardButton_enc (b : InlineKeyboardButton)
    (h : btnValid b = true) :
    parseInlineKeyboardButton (encInlineKeyboardButton b) = some b := by
  simp only [btnValid, Bool.and_eq_true] at h
  obtain ⟨⟨hcd, hweb⟩, hlog⟩ := h
  cases b
  simp only [InlineKeyboardButton.mk.injEq] at hcd hweb hlog ⊢
  simp [parseInlineKeyboardButton, encInlineKeyboardButton, reqF, optF,
    Option.bind, optProc_map,
    optProc_map _ (fun s hs => asStrMax_le (of_decide_eq_true (opt_all_prop hcd s hs))),
    optProc_map _ (fun w hw => parseWebAppInfo_enc w (opt_all_prop hweb w hw)),
    optProc_map _ (fun l hl => parseLoginUrl_enc l (opt_all_prop hlog l hl))]

theorem parseInlineKeyboardMarkup_enc (m : InlineKeyboardMarkup)
    (h : markupValid m = true) :
    parseInlineKeyboardMarkup (encInlineKeyboardMarkup m) = some m := by
  cases m with
  | mk rows =>
    simp only [markupValid, List.all_eq_true] at h
    have hrows : asArr (asArr parseInlineKeyboardButton)
        (encArr (encArr encInlineKeyboardButton) rows) = some rows :=
      asArr_enc rows (fun row hrow =>
        asArr_enc row (fun b hb =>
          parseInlineKeyboardButton_enc b (h row hrow b hb)))
    simp [parseInlineKeyboardMarkup, encInlineKeyboardMarkup, reqF,
      Option.bind, hrows]

/-! ## Message round-trip -/

theorem jfAppend_nil_right (l : JsonFields) : jfAppend l .nil = l := by
  match l with
  | .nil => rfl
  | .cons k v tl => simp [jfAppend, jfAppend_nil_right tl]

theorem jfAppend_assoc (a b c : JsonFields) :
    jfAppend (jfAppend a b) c = jfAppend a (jfAppend b c) := by
  match a with
  | .nil => rfl
  | .cons k v tl => simp [jfAppend, jfAppend_assoc tl b c]

/-- Appends extra fields to a JSON object (models spreading additional
undeclared properties into the underlying JavaScript object). -/
def extendObj : Json → JsonFields → Json
  | .obj fs, junk => .obj (jfAppend fs junk)
  | j, _ => j

@[simp] theorem extendObj_nil (j : Json) : extendObj j .nil = j := by
  cases j <;> simp [extendObj, jfAppend_nil_right]

/-- The optional message held by a `ReplyTo`. -/
def replyOpt : ReplyTo → Option Message
  | .noReply => none
  | .reply m => some m

@[simp] theorem jLookup_encReplySeg (r : ReplyTo) (key : String) :
    jLookup (encReplySeg r) key =
      if "reply_to_message" = key then (replyOpt r).map encMessage else none := by
  cases r <;> simp [encReplySeg, replyOpt]

/-- A field list without a `reply_to_message` key resolves the reply field to
"absent". -/
theorem parseReplyField_noKey (fs : JsonFields)
    (h : jLookup fs "reply_to_message" = none) :
    parseReplyField fs = some .noReply := by
  match fs with
  | .nil => rfl
  | .cons k v tl =>
    simp only [jLookup] at h
    by_cases hk : k = "reply_to_message"
    · rw [if_pos (by rw [hk])] at h; cases h
    · rw [if_neg (fun hh => hk (by rw [hh]))] at h
      simp only [parseReplyField, if_neg hk]
      exact parseReplyField_noKey tl h

/-- Scanning for the reply field skips a prefix that does not contain it. -/
theorem parseReplyField_skip (a b : JsonFields)
    (ha : jLookup a "reply_to_message" = none) :
    parseReplyField (jfAppend a b) = parseReplyField b := by
  match a with
  | .nil => rfl
  | .cons k v tl =>
    simp only [jLookup] at ha
    by_cases hk : k = "reply_to_message"
    · rw [if_pos (by rw [hk])] at ha; cases ha
    · rw [if_neg (fun hh => hk (by rw [hh]))] at ha
      simp only [jfAppend, parseReplyField, if_neg hk]
      exact parseReplyField_skip tl b ha

/-- `true` when none of the given keys occurs in the field list. -/
def keysFree (junk : JsonFields) (keys : List String) : Bool :=
  keys.all fun k => (jLookup junk k).isNone

theorem keysFree_prop {junk : JsonFields} {keys : List String}
    (h : keysFree junk keys = true) : ∀ k ∈ keys, jLookup junk k = none := by
  intro k hk
  rw [keysFree, List.all_eq_true] at h
  simpa [Option.isNone_iff_eq_none] using h k hk

/-- The declared keys of `MessageSchema`. -/
def msgKeys : List String :=
  ["message_id", "message_thread_id", "from", "sender_chat", "date", "chat",
   "forward_from", "forward_from_chat", "forward_from_message_id",
   "forward_signature", "forward_sender_name", "forward_date",
   "is_topic_message", "is_automatic_forward", "reply_to_message", "via_bot",
   "edit_date", "has_protected_content", "media_group_id", "author_signature",
   "text", "entities", "caption", "caption_entities", "photo", "location",
   "reply_markup"]

mutual
/-- A canonically encoded valid message, extended with arbitrary fields at
undeclared keys, parses back to exactly the original message. -/
theorem parseMessage_extend (m : Message) (junk : JsonFields)
    (hj : keysFree junk msgKeys = true) (hv : msgValid m = true) :
    parseMessage (extendObj (encMessage m) junk) = some m := by
  have hks := keysFree_prop hj
  cases m with
  | mk message_id message_thread_id sender sender_chat date chat forward_from
      forward_from_chat forward_from_message_id forward_signature
      forward_sender_name forward_date is_topic_message is_automatic_forward
      reply_to_message via_bot edit_date has_protected_content media_group_id
      author_signature text entities caption caption_entities photo location
      reply_markup =>
    simp only [msgValid, Bool.and_eq_true] at hv
    obtain ⟨hvr, hvm⟩ := hv
    have hpre : jLookup
        (msgFieldsPre message_id message_thread_id sender sender_chat date chat
          forward_from forward_from_chat forward_from_message_id
          forward_signature forward_sender_name forward_date is_topic_message
          is_automatic_forward) "reply_to_message" = none := by
      simp [msgFieldsPre]
    have hpost : jLookup
        (msgFieldsPost via_bot edit_date has_protected_content media_group_id
          author_signature text entities caption caption_entities photo
          location reply_markup) "reply_to_message" = none := by
      simp [msgFieldsPost]
    have hjr : jLookup junk "reply_to_message" = none := hks _ (by decide)
    rw [encMessage, extendObj, jfAppend_assoc, jfAppend_assoc]
    have hreply : parseReplyField
        (jfAppend
          (msgFieldsPre message_id message_thread_id sender sender_chat date
            chat forward_from forward_from_chat forward_from_message_id
            forward_signature forward_sender_name forward_date
            is_topic_message is_automatic_forward)
          (jfAppend (encReplySeg reply_to_message)
            (jfAppend
              (msgFieldsPost via_bot edit_date has_protected_content
                media_group_id author_signature text entities caption
                caption_entities photo location reply_markup) junk))) =
        some reply_to_message := by
      rw [parseReplyField_skip _ _ hpre]
      exact parseReplySeg_extend reply_to_message _
        (by simp [jLookup_append, hpost, hjr]) hvr
    have hjunk_all : ∀ k ∈ msgKeys, jLookup junk k = none := hks
    rw [parseMessage, hreply]
    simp [buildMessage, parseMsgPartA, parseMsgPartB, parseMsgPartC,
      msgFieldsPre, msgFieldsPost, msgKeys, reqF, optF, Option.bind,
      hjunk_all, optProc_map,
      optProc_map _ (fun l _ => asArr_enc l (fun x _ => parseMessageEntity_enc x)),
      optProc_map _ (fun l _ => asArr_enc l (fun x _ => parsePhotoSize_enc x)),
      optProc_map _ (fun mk hmk =>
        parseInlineKeyboardMarkup_enc mk (opt_all_prop hvm mk hmk))]

/-- The canonical reply segment followed by reply-free fields resolves the
reply field to the original value. -/
theorem parseReplySeg_extend (r : ReplyTo) (rest : JsonFields)
    (hr : jLookup rest "reply_to_message" = none) (hv : replyValid r = true) :
    parseReplyField (jfAppend (encReplySeg r) rest) = some r := by
  cases r with
  | noReply =>
    rw [encReplySeg, jfAppend_nil]
    exact parseReplyField_noKey rest hr
  | reply m =>
    have hm : parseMessage (encMessage m) = some m := by
      have := parseMessage_extend m .nil rfl (by simpa [replyValid] using hv)
      simpa using this
    rw [encReplySeg, jfAppend_cons, parseReplyField]
    simp [hm]
end

/-- Canonical round-trip for `MessageSchema`. -/
theorem parseMessage_enc (m : Message) (hv : msgValid m = true) :
    parseMessage (encMessage m) = some m := by
  simpa using parseMessage_extend m .nil rfl hv

/-- The declared keys of `UserSchema`. -/
def userKeys : List String :=
  ["id", "is_bot", "first_name", "last_name", "username", "language_code",
   "is_premium", "added_to_attachment_menu", "can_join_groups",
   "can_read_all_group_messages", "supports_inline_queries"]

/-- A canonically encoded user, extended with arbitrary fields at undeclared
keys, parses back to exactly the original user. -/
theorem parseUser_extend (u : User) (junk : JsonFields)
    (hj : keysFree junk userKeys = true) :
    parseUser (extendObj (encUser u) junk) = some u := by
  have hjunk_all : ∀ k ∈ userKeys, jLookup junk k = none := keysFree_prop hj
  cases u
  simp [parseUser, encUser, extendObj, userKeys, hjunk_all, reqF, optF,
    optProc_map, Option.bind]

/-- Canonical round-trip for `CallbackQuerySchema`. -/
theorem parseCallbackQuery_enc (q : CallbackQuery) (hv : cbqValid q = true) :
    parseCallbackQuery (encCallbackQuery q) = some q := by
  rw [cbqValid] at hv
  cases q
  simp only [Option.all] at hv
  simp [parseCallbackQuery, encCallbackQuery, reqF, optF, Option.bind,
    optProc_map,
    optProc_map _ (fun m hm => parseMessage_enc m (opt_all_prop hv m hm))]

/-- The declared keys of `UpdateSchema`. -/
def updKeys : List String :=
  ["update_id", "message", "edited_message", "channel_post",
   "edited_channel_post", "callback_query"]

/-- A canonically encoded valid update, extended with arbitrary fields at
undeclared keys, parses back to exactly the original update. -/
theorem parseUpdate_extend (u : Update) (junk : JsonFields)
    (hj : keysFree junk updKeys = true) (hv : updValid u = true) :
    parseUpdate (extendObj (encUpdate u) junk) = some u := by
  have hjunk_all : ∀ k ∈ updKeys, jLookup junk k = none := keysFree_prop hj
  simp only [updValid, Bool.and_eq_true] at hv
  obtain ⟨⟨⟨⟨hm, hem⟩, hcp⟩, hecp⟩, hcq⟩ := hv
  cases u
  simp [parseUpdate, encUpdate, extendObj, updKeys, hjunk_all, reqF, optF,
    Option.bind, optProc_map,
    optProc_map _ (fun m hm2 => parseMessage_enc m (opt_all_prop hm m hm2)),
    optProc_map _ (fun m hm2 => parseMessage_enc m (opt_all_prop hem m hm2)),
    optProc_map _ (fun m hm2 => parseMessage_enc m (opt_all_prop hcp m hm2)),
    optProc_map _ (fun m hm2 => parseMessage_enc m (opt_all_prop hecp m hm2)),
    optProc_map _ (fun q hq => parseCallbackQuery_enc q (opt_all_prop hcq q hq))]

/-- Canonical round-trip for `UpdateSchema`. -/
theorem parseUpdate_enc (u : Update) (hv : updValid u = true) :
    parseUpdate (encUpdate u) = some u := by
  simpa using parseUpdate_extend u .nil rfl hv

/-! ## Client configuration (src/client/config.ts) -/

/-- The input type of `TelegramConfigSchema` (`z.input`): `botToken` is
required, `baseUrl` and `timeout` may be omitted. -/
structure TelegramConfigInput where
  botToken : String
  baseUrl : Option String
  timeout : Option Rat

/-- The parsed configuration (`z.infer` of `TelegramConfigSchema`). -/
structure TelegramConfig where
  botToken : String
  baseUrl : String
  timeout : Int
deriving DecidableEq

/-- `TelegramConfigSchema.parse` as invoked by the `TelegramBot` constructor:
`botToken` must be non-empty (`min(1)` compares the JavaScript string
length), `baseUrl` defaults to `https://api.telegram.org` and otherwise must
satisfy the URL check, `timeout` defaults to `30000` and otherwise must be a
positive integer. -/
def parseTelegramConfig (c : TelegramConfigInput) : Option TelegramConfig := do
  let botToken ← if 1 ≤ utf16Len c.botToken then some c.botToken else none
  let baseUrl ←
    match c.baseUrl with
    | none => some "https://api.telegram.org"
    | some s => if jsURLValid s then some s else none
  let timeout ←
    match c.timeout with
    | none => some (30000 : Int)
    | some q => if q.den = 1 ∧ 0 < q then some q.num else none
  pure ⟨botToken, baseUrl, timeout⟩

/-- JavaScript `token.slice(0, 3)`. -/
def sliceFront3 (s : String) : String := String.mk (s.data.take 3)

/-- JavaScript `token.slice(-3)`. -/
def sliceBack3 (s : String) : String := String.mk (s.data.drop (s.data.length - 3))

/-- `TelegramBot.getBotTokenMasked` (src/client/index.ts lines 538-542):
tokens shorter than 10 characters mask to `"***"`, otherwise the first three
and last three characters joined by `"..."`. -/
def getBotTokenMasked (token : String) : String :=
  if token.length < 10 then "***"
  else sliceFront3 token ++ "..." ++ sliceBack3 token

/-! ## Response envelope (src/client/index.ts lines 381-394,
src/client/config.ts lines 64-72) -/

/-- The wire envelope `TelegramResponse<T>`: `{ ok: true, result }` or
`{ ok: false, error_code, description }`. -/
inductive TelegramResponse (α : Type) where
  | success (result : α)
  | failure (error_code : Int) (description : String)

/-- The `TelegramAPIError` class: public `errorCode` and `description`
fields, the inherited `Error.message` built by the constructor, and the
class name. -/
structure TelegramAPIError where
  errorCode : Int
  description : String
  message : String
  name : String
deriving DecidableEq

/-- The `TelegramAPIError` constructor. -/
def mkTelegramAPIError (errorCode : Int) (description : String) :
    TelegramAPIError :=
  ⟨errorCode, description,
    "Telegram API Error " ++ toString errorCode ++ ": " ++ description,
    "TelegramAPIError"⟩

/-- The envelope unwrapping in `request`: a non-`ok` envelope throws a
`TelegramAPIError` built from `error_code` and `description`; an `ok`
envelope returns its `result` payload. -/
def unwrapResponse {α : Type} : TelegramResponse α → Except TelegramAPIError α
  | .success r => .ok r
  | .failure c d => .error (mkTelegramAPIError c d)

/-- `sendMessage`'s handling of the transport's response envelope (the
result payload is the untyped message object). -/
def sendMessageOutcome (env : TelegramResponse Json) :
    Except TelegramAPIError Json :=
  unwrapResponse env

/-! ## Request body encoding (src/client/index.ts lines 337-405) -/

/-- An opaque binary `Blob`/`File` value. -/
structure FileValue where
  name : String
  bytes : List Nat
deriving DecidableEq

/-- A JavaScript parameter value as seen by `request`: `undef` models a key
explicitly set to `undefined` (equivalently, an omitted optional key),
`jsonVal` an object or array value, `file` a `Blob`/`File`. -/
inductive ParamValue where
  | undef
  | null
  | str (s : String)
  | num (q : Rat)
  | bool (b : Bool)
  | jsonVal (j : Json)
  | file (f : FileValue)

/-- JavaScript number-to-string conversion, exact on the integers (the only
numbers the exposed methods pass); non-integral rationals are rendered in
Lean's fraction notation as an approximation of JS float formatting. -/
def jsNumToString (q : Rat) : String :=
  if q.den = 1 then toString q.num else toString q

/-- One hexadecimal digit. -/
def hexDigit (n : Nat) : Char :=
  Char.ofNat (if n < 10 then 0x30 + n else 0x57 + (n - 10))

/-- The string escaping of `JSON.stringify`. -/
def escChar (c : Char) : List Char :=
  if c.val = 0x22 then [Char.ofNat 0x5C, Char.ofNat 0x22]
  else if c.val = 0x5C then [Char.ofNat 0x5C, Char.ofNat 0x5C]
  else if c.val = 0x08 then [Char.ofNat 0x5C, Char.ofNat 0x62]
  else if c.val = 0x09 then [Char.ofNat 0x5C, Char.ofNat 0x74]
  else if c.val = 0x0A then [Char.ofNat 0x5C, Char.ofNat 0x6E]
  else if c.val = 0x0C then [Char.ofNat 0x5C, Char.ofNat 0x66]
  else if c.val = 0x0D then [Char.ofNat 0x5C, Char.ofNat 0x72]
  else if c.val < 0x20 then
    [Char.ofNat 0x5C, Char.ofNat 0x75, Char.ofNat 0x30, Char.ofNat 0x30,
     hexDigit (c.val.toNat / 16), hexDigit (c.val.toNat % 16)]
  else [c]

/-- Escapes a string body for `JSON.stringify`. -/
def jsonEscape (s : String) : String :=
  String.mk (s.data.foldr (fun c acc => escChar c ++ acc) [])

mutual
/-- `JSON.stringify` over the JSON model. -/
def stringifyJson : Json → String
  | .null => "null"
  | .bool b => if b then "true" else "false"
  | .num q => jsNumToString q
  | .str s => "\"" ++ jsonEscape s ++ "\""
  | .arr xs => "[" ++ stringifyList xs ++ "]"
  | .obj fs => "\x7b" ++ stringifyFields fs ++ "\x7d"

/-- Comma-separated stringified array elements. -/
def stringifyList : JsonList → String
  | .nil => ""
  | .cons x .nil => stringifyJson x
  | .cons x tl => stringifyJson x ++ "," ++ stringifyList tl

/-- Comma-separated stringified object entries. -/
def stringifyFields : JsonFields → String
  | .nil => ""
  | .cons k v .nil => "\"" ++ jsonEscape k ++ "\":" ++ stringifyJson v
  | .cons k v tl =>
    "\"" ++ jsonEscape k ++ "\":" ++ stringifyJson v ++ "," ++
      stringifyFields tl
end

/-- How `JSON.stringify` treats a parameter value inside the params object:
`undefined`-valued keys are omitted, `null` is kept, a `Blob`/`File` has no
enumerable properties and serializes as `{}`. -/
def paramJson : ParamValue → Option Json
  | .undef => none
  | .null => some .null
  | .str s => some (.str s)
  | .num q => some (.num q)
  | .bool b => some (.bool b)
  | .jsonVal j => some j
  | .file _ => some (.obj .nil)

/-- The params object as serialized by `JSON.stringify(params)`. -/
def paramsToJsonFields : List (String × ParamValue) → JsonFields
  | [] => .nil
  | (k, v) :: tl =>
    match paramJson v with
    | none => paramsToJsonFields tl
    | some j => .cons k j (paramsToJsonFields tl)

/-- A `FormData` entry: a file appended as-is, or a text field. -/
inductive FormEntry where
  | fileEntry (f : FileValue)
  | textEntry (s : String)
deriving DecidableEq

/-- The `FormData` treatment of one parameter in the multipart branch of
`request`: `undefined`/`null` values are skipped, `Blob`/`File` values are
appended as-is, other object values are JSON-serialized, the rest are
stringified with `String(value)`. -/
def formDataValue : ParamValue → Option FormEntry
  | .undef => none
  | .null => none
  | .file f => some (.fileEntry f)
  | .jsonVal j => some (.textEntry (stringifyJson j))
  | .str s => some (.textEntry s)
  | .num q => some (.textEntry (jsNumToString q))
  | .bool b => some (.textEntry (if b then "true" else "false"))

/-- The `FormData` built by the multipart branch of `request`. -/
def buildFormEntries : List (String × ParamValue) → List (String × FormEntry)
  | [] => []
  | (k, v) :: tl =>
    match formDataValue v with
    | none => buildFormEntries tl
    | some e => (k, e) :: buildFormEntries tl

/-- A request body: a JSON string or multipart form data. -/
inductive RequestBody where
  | jsonBody (s : String)
  | formBody (entries : List (String × FormEntry))
deriving DecidableEq

/-- The body plus the content-type header set by `request`. -/
structure BuiltRequest where
  body : RequestBody
  contentTypeHeader : Option String
deriving DecidableEq

/-- The body/header construction of `request`: multipart form data when the
`isMultipart` flag is set and params were given; otherwise
`JSON.stringify(params || {})` with a JSON content-type header. -/
def buildRequest (params : Option (List (String × ParamValue)))
    (isMultipart : Bool) : BuiltRequest :=
  match isMultipart, params with
  | true, some ps => ⟨.formBody (buildFormEntries ps), none⟩
  | _, _ =>
    ⟨.jsonBody (stringifyJson (.obj (paramsToJsonFields (params.getD [])))),
      some "application/json"⟩

/-! ## Exposed method parameters (src/client/index.ts) -/

/-- `chat_id: number | string`. -/
inductive ChatId where
  | num (q : Rat)
  | str (s : String)

/-- The parameter value of a `chat_id`. -/
def chatIdParam : ChatId → ParamValue
  | .num q => .num q
  | .str s => .str s

/-- `parse_mode: 'MarkdownV2' | 'Markdown' | 'HTML'`. -/
inductive ParseMode where
  | markdownV2 | markdown | html

/-- The wire string of a `ParseMode`. -/
def encParseMode : ParseMode → String
  | .markdownV2 => "MarkdownV2"
  | .markdown => "Markdown"
  | .html => "HTML"

/-- The inline entity type of `SendMessageParams.entities` /
`SendPhotoParams.caption_entities` (its `user` field is typed `unknown`). -/
structure SendEntity where
  type : String
  offset : Rat
  length : Rat
  url : Option String
  user : Option Json
  language : Option String

/-- JSON form of a `SendEntity`. -/
def encSendEntity (e : SendEntity) : Json :=
  .obj (jfOfList
    [ jreq "type" (.str e.type),
      jreq "offset" (.num e.offset),
      jreq "length" (.num e.length),
      jopt "url" Json.str e.url,
      jopt "user" (fun j => j) e.user,
      jopt "language" Json.str e.language ])

/-- The parameter value of an omitted (`undefined`) or present optional
field. -/
def optEntry {α : Type} (f : α → ParamValue) : Option α → ParamValue
  | none => .undef
  | some x => f x

/-- `SetWebhookParams`: only `certificate` can hold a binary file. -/
structure SetWebhookParams where
  url : String
  certificate : Option FileValue
  ip_address : Option String
  max_connections : Option Rat
  allowed_updates : Option (List String)
  drop_pending_updates : Option Bool
  secret_token : Option String

/-- The entries of a `SetWebhookParams` object in declaration order. -/
def setWebhookEntries (p : SetWebhookParams) : List (String × ParamValue) :=
  [("url", .str p.url),
   ("certificate", optEntry .file p.certificate),
   ("ip_address", optEntry .str p.ip_address),
   ("max_connections", optEntry .num p.max_connections),
   ("allowed_updates",
     optEntry (fun l => .jsonVal (.arr (jlistOf (l.map Json.str))))
       p.allowed_updates),
   ("drop_pending_updates", optEntry .bool p.drop_pending_updates),
   ("secret_token", optEntry .str p.secret_token)]

/-- `setWebhook`'s multipart flag: `params.certificate instanceof Blob ||
params.certificate instanceof File`. -/
def setWebhookHasFile (p : SetWebhookParams) : Bool :=
  p.certificate.isSome

/-- The request body built by `setWebhook`. -/
def setWebhookRequest (p : SetWebhookParams) : BuiltRequest :=
  buildRequest (some (setWebhookEntries p)) (setWebhookHasFile p)

/-- `SendMessageParams`: no field can hold a binary file. -/
structure SendMessageParams where
  chat_id : ChatId
  text : String
  message_thread_id : Option Rat
  parse_mode : Option ParseMode
  entities : Option (List SendEntity)
  disable_web_page_preview : Option Bool
  disable_notification : Option Bool
  protect_content : Option Bool
  reply_to_message_id : Option Rat
  allow_sending_without_reply : Option Bool
  reply_markup : Option ReplyMarkup

/-- The entries of a `SendMessageParams` object in declaration order. -/
def sendMessageEntries (p : SendMessageParams) : List (String × ParamValue) :=
  [("chat_id", chatIdParam p.chat_id),
   ("text", .str p.text),
   ("message_thread_id", optEntry .num p.message_thread_id),
   ("parse_mode", optEntry (fun m => .str (encParseMode m)) p.parse_mode),
   ("entities",
     optEntry (fun l => .jsonVal (.arr (jlistOf (l.map encSendEntity))))
       p.entities),
   ("disable_web_page_preview", optEntry .bool p.disable_web_page_preview),
   ("disable_notification", optEntry .bool p.disable_notification),
   ("protect_content", optEntry .bool p.protect_content),
   ("reply_to_message_id", optEntry .num p.reply_to_message_id),
   ("allow_sending_without_reply", optEntry .bool p.allow_sending_without_reply),
   ("reply_markup",
     optEntry (fun m => .jsonVal (encReplyMarkup m)) p.reply_markup)]

/-- The request body built by `sendMessage` (always the non-multipart default
flag). -/
def sendMessageRequest (p : SendMessageParams) : BuiltRequest :=
  buildRequest (some (sendMessageEntries p)) false

/-- `photo: string | Blob | File`. -/
inductive PhotoInput where
  | ref (s : String)
  | upload (f : FileValue)

/-- The parameter value of a `photo`. -/
def photoParam : PhotoInput → ParamValue
  | .ref s => .str s
  | .upload f => .file f

/-- `SendPhotoParams`: only `photo` can hold a binary file. -/
structure SendPhotoParams where
  chat_id : ChatId
  photo : PhotoInput
  message_thread_id : Option Rat
  caption : Option String
  parse_mode : Option ParseMode
  caption_entities : Option (List SendEntity)
  has_spoiler : Option Bool
  disable_notification : Option Bool
  protect_content : Option Bool
  reply_to_message_id : Option Rat
  allow_sending_without_reply : Option Bool
  reply_markup : Option ReplyMarkup

/-- The entries of a `SendPhotoParams` object in declaration order. -/
def sendPhotoEntries (p : SendPhotoParams) : List (String × ParamValue) :=
  [("chat_id", chatIdParam p.chat_id),
   ("photo", photoParam p.photo),
   ("message_thread_id", optEntry .num p.message_thread_id),
   ("caption", optEntry .str p.caption),
   ("parse_mode", optEntry (fun m => .str (encParseMode m)) p.parse_mode),
   ("caption_entities",
     optEntry (fun l => .jsonVal (.arr (jlistOf (l.map encSendEntity))))
       p.caption_entities),
   ("has_spoiler", optEntry .bool p.has_spoiler),
   ("disable_notification", optEntry .bool p.disable_notification),
   ("protect_content", optEntry .bool p.protect_content),
   ("reply_to_message_id", optEntry .num p.reply_to_message_id),
   ("allow_sending_without_reply", optEntry .bool p.allow_sending_without_reply),
   ("reply_markup",
     optEntry (fun m => .jsonVal (encReplyMarkup m)) p.reply_markup)]

/-- `sendPhoto`'s multipart flag: `params.photo instanceof Blob ||
params.photo instanceof File`. -/
def sendPhotoHasFile (p : SendPhotoParams) : Bool :=
  match p.photo with
  | .upload _ => true
  | .ref _ => false

/-- The request body built by `sendPhoto`. -/
def sendPhotoRequest (p : SendPhotoParams) : BuiltRequest :=
  buildRequest (some (sendPhotoEntries p)) (sendPhotoHasFile p)

/-! ## Specification-side encoding description (claim C2) -/

/-- Whether a parameter value is a binary blob/file. -/
def paramIsFile : ParamValue → Bool
  | .file _ => true
  | _ => false

/-- Whether any parameter value is a binary blob/file. -/
def paramsHaveFile (ps : List (String × ParamValue)) : Bool :=
  ps.any fun kv => paramIsFile kv.2

/-- Follows the claim's words: the multipart entries — file values appended
as-is, other object-valued fields JSON-serialized, scalar values
stringified, null/undefined entries omitted. -/
def specFormEntries (ps : List (String × ParamValue)) :
    List (String × FormEntry) :=
  ps.filterMap fun kv =>
    match kv.2 with
    | .undef => none
    | .null => none
    | .file f => some (kv.1, .fileEntry f)
    | .jsonVal j => some (kv.1, .textEntry (stringifyJson j))
    | .str s => some (kv.1, .textEntry s)
    | .num q => some (kv.1, .textEntry (jsNumToString q))
    | .bool b => some (kv.1, .textEntry (if b then "true" else "false"))

/-- Follows the claim's words: if any parameter value is a binary blob/file,
the whole parameter set is encoded as multipart form data; otherwise as a
single JSON body with a JSON content-type header. -/
def specEncoding (ps : List (String × ParamValue)) : BuiltRequest :=
  if paramsHaveFile ps then ⟨.formBody (specFormEntries ps), none⟩
  else
    ⟨.jsonBody (stringifyJson (.obj (paramsToJsonFields ps))),
      some "application/json"⟩

theorem buildFormEntries_eq_spec (ps : List (String × ParamValue)) :
    buildFormEntries ps = specFormEntries ps := by
  induction ps with
  | nil => rfl
  | cons kv tl ih =>
    obtain ⟨k, v⟩ := kv
    cases v <;> simp [buildFormEntries, specFormEntries, formDataValue, ih,
      List.filterMap_cons]

@[simp] theorem paramIsFile_undef : paramIsFile .undef = false := rfl
@[simp] theorem paramIsFile_null : paramIsFile .null = false := rfl
@[simp] theorem paramIsFile_str (s : String) : paramIsFile (.str s) = false := rfl
@[simp] theorem paramIsFile_num (q : Rat) : paramIsFile (.num q) = false := rfl
@[simp] theorem paramIsFile_bool (b : Bool) : paramIsFile (.bool b) = false := rfl
@[simp] theorem paramIsFile_jsonVal (j : Json) : paramIsFile (.jsonVal j) = false := rfl
@[simp] theorem paramIsFile_file (f : FileValue) : paramIsFile (.file f) = true := rfl

@[simp] theorem paramIsFile_optEntry_file (o : Option FileValue) :
    paramIsFile (optEntry .file o) = o.isSome := by
  cases o <;> rfl

/-- An optional entry built from a non-file constructor is never a file. -/
@[simp] theorem paramIsFile_optEntry {α : Type} {f : α → ParamValue}
    (h : ∀ x, paramIsFile (f x) = false) (o : Option α) :
    paramIsFile (optEntry f o) = false := by
  cases o with
  | none => rfl
  | some x => exact h x

@[simp] theorem paramIsFile_chatId (c : ChatId) :
    paramIsFile (chatIdParam c) = false := by
  cases c <;> rfl

@[simp] theorem paramIsFile_photo (ph : PhotoInput) :
    paramIsFile (photoParam ph) =
      (match ph with | .upload _ => true | .ref _ => false) := by
  cases ph <;> rfl

/-- `request` produces exactly the encoding that the claim describes whenever
the multipart flag agrees with "some parameter value is a file". -/
theorem buildRequest_spec (ps : List (String × ParamValue)) (flag : Bool)
    (h : paramsHaveFile ps = flag) :
    buildRequest (some ps) flag = specEncoding ps := by
  cases flag <;>
    simp [buildRequest, specEncoding, h, buildFormEntries_eq_spec, Option.getD]

theorem setWebhookHasFile_eq (p : SetWebhookParams) :
    paramsHaveFile (setWebhookEntries p) = setWebhookHasFile p := by
  cases p with
  | mk url cert ip mx au dp st =>
    simp [setWebhookEntries, paramsHaveFile, setWebhookHasFile]

theorem sendMessageNoFile (p : SendMessageParams) :
    paramsHaveFile (sendMessageEntries p) = false := by
  cases p with
  | mk cid text mti pm ent dwpp dn pc rtmi aswr rm =>
    simp [sendMessageEntries, paramsHaveFile]

theorem sendPhotoHasFile_eq (p : SendPhotoParams) :
    paramsHaveFile (sendPhotoEntries p) = sendPhotoHasFile p := by
  cases p with
  | mk cid photo mti cap pm ent hs dn pc rtmi aswr rm =>
    cases photo <;>
      simp [sendPhotoEntries, paramsHaveFile, sendPhotoHasFile, photoParam]

theorem setWebhookRequest_spec (p : SetWebhookParams) :
    setWebhookRequest p = specEncoding (setWebhookEntries p) :=
  buildRequest_spec _ _ (setWebhookHasFile_eq p)

theorem sendMessageRequest_spec (p : SendMessageParams) :
    sendMessageRequest p = specEncoding (sendMessageEntries p) :=
  buildRequest_spec _ _ (sendMessageNoFile p)

theorem sendPhotoRequest_spec (p : SendPhotoParams) :
    sendPhotoRequest p = specEncoding (sendPhotoEntries p) :=
  buildRequest_spec _ _ (sendPhotoHasFile_eq p)

/-! ## Reply-field and failure-propagation lemmas -/

/-- A bind is `none` when every continuation value is `none`. -/
theorem optionBindCongrNone {α β : Type} (o : Option α) {f : α → Option β}
    (h : ∀ a, f a = none) : o.bind f = none := by
  cases o <;> simp [h]

/-- The reply-field scan agrees with first-occurrence key lookup. -/
theorem parseReplyField_lookup (fs : JsonFields) :
    parseReplyField fs =
      (match jLookup fs "reply_to_message" with
       | none => some .noReply
       | some v => (parseMessage v).map .reply) := by
  match fs with
  | .nil => rfl
  | .cons k v tl =>
    by_cases hk : k = "reply_to_message"
    · subst hk
      cases h : parseMessage v <;> simp [parseReplyField, jLookup, h]
    · simp only [parseReplyField, jLookup, if_neg hk,
        parseReplyField_lookup tl]

/-- Whether `buildMessage` succeeds does not depend on the already-parsed
reply value it is handed. -/
theorem buildMessage_isSome (fs : JsonFields) (r r' : ReplyTo) :
    (buildMessage fs r).isSome = (buildMessage fs r').isSome := by
  cases hA : parseMsgPartA fs <;> cases hB : parseMsgPartB fs <;>
    cases hC : parseMsgPartC fs <;>
    simp [buildMessage, hA, hB, hC, Option.bind]

/-- The `reply_to_message` field of a typed message. -/
def Message.replyTo : Message → ReplyTo
  | .mk _ _ _ _ _ _ _ _ _ _ _ _ _ _ r _ _ _ _ _ _ _ _ _ _ _ _ => r

/-- A successful `buildMessage` stores the handed reply value unchanged. -/
theorem buildMessage_replyTo (fs : JsonFields) (r : ReplyTo) (m : Message)
    (h : buildMessage fs r = some m) : m.replyTo = r := by
  cases hA : parseMsgPartA fs <;> cases hB : parseMsgPartB fs <;>
    cases hC : parseMsgPartC fs <;>
    simp [buildMessage, hA, hB, hC, Option.bind] at h
  rw [← h]
  rfl

/-- A demonstration chat payload. -/
def chatJdemo : Json :=
  .obj (.cons "id" (.num 7) (.cons "type" (.str "group") .nil))

/-- A minimal message payload with a reply chain of the given depth. -/
def chainMsg : Nat → Json
  | 0 =>
    .obj (.cons "message_id" (.num 1) (.cons "date" (.num 2)
      (.cons "chat" chatJdemo .nil)))
  | n + 1 =>
    .obj (.cons "message_id" (.num 1) (.cons "date" (.num 2)
      (.cons "chat" chatJdemo
        (.cons "reply_to_message" (chainMsg n) .nil))))

/-- The validator accepts reply chains of every finite depth. -/
theorem chainMsg_parses : ∀ n : Nat, (parseMessage (chainMsg n)).isSome = true := by
  intro n
  induction n with
  | zero => rfl
  | succ n ih =>
    obtain ⟨m, hm⟩ := Option.isSome_iff_exists.mp ih
    simp only [chainMsg, parseMessage, parseReplyField, chatJdemo]
    simp only [show ("message_id" = "reply_to_message") = False by simp,
      show ("date" = "reply_to_message") = False by simp,
      show ("chat" = "reply_to_message") = False by simp,
      if_false, if_pos rfl, hm]
    rfl

/-- `ChatSchema` fails whenever the `type` value fails the enum check. -/
theorem parseChat_badType (fs : JsonFields) (j : Json)
    (hty : jLookup fs "type" = some j) (hbad : asChatType j = none) :
    parseChat (.obj fs) = none := by
  have hreq : reqF fs "type" asChatType = none := by
    rw [reqF, hty]
    simpa using hbad
  simp only [parseChat]
  refine optionBindCongrNone _ (fun a => ?_)
  rw [hreq]
  rfl

/-- `MessageSchema` fails whenever its `chat` value fails `ChatSchema`. -/
theorem parseMessage_badChat (mfs : JsonFields) (cj : Json)
    (hcj : jLookup mfs "chat" = some cj) (hchat : parseChat cj = none) :
    parseMessage (.obj mfs) = none := by
  have hreq : reqF mfs "chat" parseChat = none := by
    rw [reqF, hcj]
    simpa using hchat
  have hA : parseMsgPartA mfs = none := by
    simp only [parseMsgPartA]
    refine optionBindCongrNone _ (fun a1 => ?_)
    refine optionBindCongrNone _ (fun a2 => ?_)
    refine optionBindCongrNone _ (fun a3 => ?_)
    refine optionBindCongrNone _ (fun a4 => ?_)
    refine optionBindCongrNone _ (fun a5 => ?_)
    rw [hreq]
    rfl
  simp only [parseMessage]
  cases hr : parseReplyField mfs with
  | none => rfl
  | some r => simp [buildMessage, hA, Option.bind]

/-- `UpdateSchema` fails whenever its `message` value fails `MessageSchema`. -/
theorem parseUpdate_badMessage (ufs : JsonFields) (mj : Json)
    (hmj : jLookup ufs "message" = some mj) (hmsg : parseMessage mj = none) :
    parseUpdate (.obj ufs) = none := by
  have hopt : optF ufs "message" parseMessage = none := by
    rw [optF, hmj]
    simp [optProc, hmsg]
  simp only [parseUpdate]
  refine optionBindCongrNone _ (fun a1 => ?_)
  rw [hopt]
  rfl

/-! ## String containment (token masking) -/

/-- Whether a character list starts with another. -/
def listStartsWith : List Char → List Char → Bool
  | _, [] => true
  | [], _ :: _ => false
  | a :: as, b :: bs => a = b && listStartsWith as bs

/-- Whether a character list contains another as a contiguous run. -/
def listContainsSub : List Char → List Char → Bool
  | [], needle => listStartsWith [] needle
  | hay@(_ :: tl), needle => listStartsWith hay needle || listContainsSub tl needle

/-- Models JavaScript's `String.prototype.includes`. -/
def strContains (hay needle : String) : Bool :=
  listContainsSub hay.data needle.data

theorem listStartsWith_length {hay needle : List Char}
    (h : listStartsWith hay needle = true) : needle.length ≤ hay.length := by
  match hay, needle with
  | _, [] => simp
  | [], _ :: _ => cases h
  | a :: as, b :: bs =>
    simp only [listStartsWith, Bool.and_eq_true] at h
    have := listStartsWith_length h.2
    simpa using this

theorem listContainsSub_length {hay needle : List Char}
    (h : listContainsSub hay needle = true) : needle.length ≤ hay.length := by
  match hay with
  | [] => exact listStartsWith_length h
  | a :: tl =>
    simp only [listContainsSub, Bool.or_eq_true] at h
    cases h with
    | inl h1 => exact listStartsWith_length h1
    | inr h2 =>
      have := listContainsSub_length h2
      simp only [List.length_cons]
      omega

theorem strContains_length {hay needle : String}
    (h : strContains hay needle = true) :
    needle.length ≤ hay.length :=
  listContainsSub_length h

theorem strAppend_data (a b : String) : (a ++ b).data = a.data ++ b.data := rfl

theorem strMk_length (l : List Char) : (String.mk l).length = l.length := rfl

/-- For tokens of length at least ten, the mask is nine characters long. -/
theorem mask_length {t : String} (h : 10 ≤ t.length) :
    (getBotTokenMasked t).length = 9 := by
  rw [getBotTokenMasked, if_neg (by omega)]
  show ((sliceFront3 t ++ "..." ++ sliceBack3 t)).data.length = 9
  have hlen : t.data.length = t.length := rfl
  simp [strAppend_data, sliceFront3, sliceBack3, List.length_take,
    List.length_drop, hlen]
  omega

/-- For tokens of length at least ten, the mask never contains the whole
token. -/
theorem mask_not_contains {t : String} (h : 10 ≤ t.length) :
    strContains (getBotTokenMasked t) t = false := by
  cases hb : strContains (getBotTokenMasked t) t with
  | false => rfl
  | true =>
    exfalso
    have hlen := strContains_length hb
    rw [mask_length h] at hlen
    omega

/-! ## Claims -/

/-- A 33-character callback-data string of two-byte characters: 66 UTF-8
bytes but 33 UTF-16 code units. -/
def cdMulti : String := String.mk (List.replicate 33 (Char.ofNat 0xE9))

/-- 64 ASCII characters (64 bytes). -/
def cdAscii64 : String := String.mk (List.replicate 64 (Char.ofNat 0x61))

/-- 65 ASCII characters (65 bytes). -/
def cdAscii65 : String := String.mk (List.replicate 65 (Char.ofNat 0x61))

/-- A minimal inline keyboard button payload with the given callback data. -/
def btnPayload (cd : String) : Json :=
  .obj (.cons "text" (.str "t") (.cons "callback_data" (.str cd) .nil))

/-- Claim C1, evaluated against the code: the source documents
`callback_data` as capped at 64 bytes, but `z.string().max(64)` compares the
UTF-16 length, so the button payload whose callback data is 33 two-byte
characters — 66 UTF-8 bytes — is accepted, contradicting the byte-cap
claim; the check that exists is a 64-UTF-16-unit cap (64 ASCII bytes pass,
65 fail). -/
theorem claim_C1_callback_data_unit_check :
    utf8ByteLen cdMulti = 66 ∧
    (parseInlineKeyboardButton (btnPayload cdMulti)).isSome = true ∧
    utf16Len cdMulti = 33 ∧
    (parseInlineKeyboardButton (btnPayload cdAscii64)).isSome = true ∧
    (parseInlineKeyboardButton (btnPayload cdAscii65)).isSome = false :=
  ⟨by decide, by decide, by decide, by decide, by decide⟩

/-- Claim C2: for each exposed remote operation and every parameter set, the
body built by `request` is exactly the claim's encoding: multipart form data
(files as-is, object values JSON-serialized, scalars stringified,
null/undefined omitted) precisely when some parameter value is a binary
file, and otherwise a single JSON body with a JSON content-type header. -/
theorem claim_C2_encoding_choice
    (pw : SetWebhookParams) (pm : SendMessageParams) (pp : SendPhotoParams) :
    setWebhookRequest pw = specEncoding (setWebhookEntries pw) ∧
    sendMessageRequest pm = specEncoding (sendMessageEntries pm) ∧
    sendPhotoRequest pp = specEncoding (sendPhotoEntries pp) :=
  ⟨setWebhookRequest_spec pw, sendMessageRequest_spec pm,
    sendPhotoRequest_spec pp⟩

/-- Claim C3: a response envelope with `ok: false` makes every client method
fail with a `TelegramAPIError` exposing the envelope's `error_code` and
`description`; an `ok: true` envelope returns the `result` payload — both
generically and for the concrete `{ ok: false, error_code: 400,
description: "Bad Request" }` envelope handled by `sendMessage`. -/
theorem claim_C3_error_envelope :
    (∀ (α : Type) (c : Int) (d : String),
      unwrapResponse (α := α) (.failure c d) = .error (mkTelegramAPIError c d)) ∧
    (∀ (c : Int) (d : String),
      (mkTelegramAPIError c d).errorCode = c ∧
      (mkTelegramAPIError c d).description = d) ∧
    (∀ (α : Type) (r : α), unwrapResponse (.success r) = .ok r) ∧
    sendMessageOutcome (.failure 400 "Bad Request") =
      .error ⟨400, "Bad Request", "Telegram API Error 400: Bad Request",
        "TelegramAPIError"⟩ ∧
    (∀ r : Json, sendMessageOutcome (.success r) = .ok r) :=
  ⟨fun _ _ _ => rfl, fun _ _ => ⟨rfl, rfl⟩, fun _ _ => rfl, rfl,
    fun _ => rfl⟩

/-- Claim C4: every valid `Update` payload round-trips through
`UpdateSchema.parse`: parsing the canonical payload of a valid typed update
succeeds and returns exactly that update, with absent optional fields absent
(`none`), not null-valued. -/
theorem claim_C4_update_roundtrip (u : Update) (hv : updValid u = true) :
    parseUpdate (encUpdate u) = some u :=
  parseUpdate_enc u hv

/-- A demonstration chat value. -/
def demoChat : Chat := ⟨7, .group, none, none, none, none, none⟩

/-- A demonstration message value. -/
def demoMsg : Message :=
  .mk 10 none none none 99 demoChat none none none none none none none none
    .noReply none none none none none (some "hi") none none none none none none

/-- A demonstration update value. -/
def demoUpd : Update := ⟨1, some demoMsg, none, none, none, none⟩

/-- Witness for claim C4 at a concrete valid update. -/
theorem claim_C4_update_roundtrip_witness :
    updValid demoUpd = true ∧ parseUpdate (encUpdate demoUpd) = some demoUpd :=
  ⟨rfl, claim_C4_update_roundtrip demoUpd rfl⟩

/-- Claim C5: for every message payload carrying a `reply_to_message` field,
validation succeeds exactly when the nested value is itself a valid message
and the remaining fields are valid; on success the typed result embeds the
parsed nested message; and the (total, hence terminating) validator accepts
reply chains of every finite depth. -/
theorem claim_C5_reply_recursive :
    (∀ (fs : JsonFields) (v : Json), jLookup fs "reply_to_message" = some v →
      (parseMessage (.obj fs)).isSome =
        ((parseMessage v).isSome && (buildMessage fs .noReply).isSome)) ∧
    (∀ (fs : JsonFields) (v : Json) (m' : Message),
      jLookup fs "reply_to_message" = some v →
      parseMessage (.obj fs) = some m' →
      ∃ m, parseMessage v = some m ∧ m'.replyTo = .reply m) ∧
    (∀ n : Nat, (parseMessage (chainMsg n)).isSome = true) := by
  refine ⟨?_, ?_, chainMsg_parses⟩
  · intro fs v hv
    simp only [parseMessage, parseReplyField_lookup, hv]
    cases hpm : parseMessage v with
    | none => simp
    | some m => simpa using buildMessage_isSome fs (.reply m) .noReply
  · intro fs v m' hv hp
    simp only [parseMessage, parseReplyField_lookup, hv] at hp
    cases hpm : parseMessage v with
    | none => rw [hpm] at hp; simp at hp
    | some m =>
      rw [hpm] at hp
      exact ⟨m, rfl, buildMessage_replyTo fs (.reply m) m' (by simpa using hp)⟩

/-- The field list of a one-deep reply payload. -/
def chainFs1 : JsonFields :=
  .cons "message_id" (.num 1) (.cons "date" (.num 2)
    (.cons "chat" chatJdemo (.cons "reply_to_message" (chainMsg 0) .nil)))

/-- Witness for claim C5 at a concrete one-deep reply payload. -/
theorem claim_C5_reply_recursive_witness :
    (parseMessage (.obj chainFs1)).isSome =
      ((parseMessage (chainMsg 0)).isSome &&
        (buildMessage chainFs1 .noReply).isSome) ∧
    (parseMessage (chainMsg 5)).isSome = true :=
  ⟨claim_C5_reply_recursive.1 chainFs1 (chainMsg 0) rfl,
    claim_C5_reply_recursive.2.2 5⟩

/-- A payload carrying both an `inline_keyboard` field and
`remove_keyboard: true`. -/
def mixedMarkup : Json :=
  .obj (.cons "inline_keyboard" (.arr .nil)
    (.cons "remove_keyboard" (.bool true) .nil))

/-- Counterexample to claim C6 as stated: this payload has
`remove_keyboard: true` and satisfies `ReplyKeyboardRemoveSchema`, yet the
union parses it as the *inline* variant (the first matching candidate), not
as `ReplyKeyboardRemove`. -/
theorem claim_C6_counterexample :
    parseReplyKeyboardRemove mixedMarkup = some ⟨true, none⟩ ∧
    parseReplyMarkup mixedMarkup = some (.inline ⟨[]⟩) ∧
    parseReplyMarkup mixedMarkup ≠ some (.removeKeyboard ⟨true, none⟩) :=
  ⟨rfl, rfl, by decide⟩

/-- Claim C6 as amended: the union tries inline keyboard, reply keyboard,
remove-keyboard, force-reply in order and takes the first match — every
payload with an `inline_keyboard` field holding valid button rows parses as
the inline variant, and a payload with `remove_keyboard: true` parses as
`ReplyKeyboardRemove` when the two earlier candidates fail, in particular
when it has no `inline_keyboard` or `keyboard` field. -/
theorem claim_C6_first_match :
    (∀ (j : Json) (m : InlineKeyboardMarkup),
      parseInlineKeyboardMarkup j = some m →
      parseReplyMarkup j = some (.inline m)) ∧
    (∀ (fs : JsonFields) (a : Json) (rows : List (List InlineKeyboardButton)),
      jLookup fs "inline_keyboard" = some a →
      asArr (asArr parseInlineKeyboardButton) a = some rows →
      parseReplyMarkup (.obj fs) = some (.inline ⟨rows⟩)) ∧
    (∀ (fs : JsonFields) (r : ReplyKeyboardRemove),
      jLookup fs "inline_keyboard" = none →
      jLookup fs "keyboard" = none →
      parseReplyKeyboardRemove (.obj fs) = some r →
      parseReplyMarkup (.obj fs) = some (.removeKeyboard r)) := by
  refine ⟨?_, ?_, ?_⟩
  · intro j m h
    rw [parseReplyMarkup, h]
  · intro fs a rows h1 h2
    have hik : parseInlineKeyboardMarkup (.obj fs) = some ⟨rows⟩ := by
      simp [parseInlineKeyboardMarkup, reqF, h1, h2, Option.bind]
    rw [parseReplyMarkup, hik]
  · intro fs r h1 h2 hrem
    have hik : parseInlineKeyboardMarkup (.obj fs) = none := by
      simp [parseInlineKeyboardMarkup, reqF, h1, Option.bind]
    have hkb : parseReplyKeyboardMarkup (.obj fs) = none := by
      simp only [parseReplyKeyboardMarkup]
      rw [show reqF fs "keyboard" (asArr (asArr parseKeyboardButton)) = none
        from by rw [reqF, h2]; rfl]
      rfl
    rw [parseReplyMarkup, hik, hkb, hrem]

/-- Witness for claim C6: a bare inline-keyboard payload parses as the inline
variant and a bare remove-keyboard payload parses as the remove variant. -/
theorem claim_C6_first_match_witness :
    parseReplyMarkup (.obj (.cons "inline_keyboard" (.arr .nil) .nil)) =
      some (.inline ⟨[]⟩) ∧
    parseReplyMarkup (.obj (.cons "remove_keyboard" (.bool true) .nil)) =
      some (.removeKeyboard ⟨true, none⟩) :=
  ⟨claim_C6_first_match.2.1 _ (.arr .nil) [] rfl rfl,
    claim_C6_first_match.2.2 _ ⟨true, none⟩ rfl rfl rfl⟩

/-- Claim C7: a configuration with a non-empty token and omitted `baseUrl`
and `timeout` parses with the documented defaults; construction fails for an
empty token, a non-URL base address, or a non-positive-integer timeout. -/
theorem claim_C7_config_defaults :
    (∀ t : String, 1 ≤ utf16Len t →
      parseTelegramConfig ⟨t, none, none⟩ =
        some ⟨t, "https://api.telegram.org", 30000⟩) ∧
    parseTelegramConfig ⟨"123456789:ABCdefGHIjklMNOpqrsTUVwxyz", none, none⟩ =
      some ⟨"123456789:ABCdefGHIjklMNOpqrsTUVwxyz",
        "https://api.telegram.org", 30000⟩ ∧
    (∀ (b : Option String) (tm : Option Rat),
      parseTelegramConfig ⟨"", b, tm⟩ = none) ∧
    (∀ (t : String) (u : String) (tm : Option Rat), jsURLValid u = false →
      parseTelegramConfig ⟨t, some u, tm⟩ = none) ∧
    (∀ (t : String) (b : Option String) (q : Rat),
      ¬(q.den = 1 ∧ 0 < q) →
      parseTelegramConfig ⟨t, b, some q⟩ = none) := by
  refine ⟨?_, ?_, ?_, ?_, ?_⟩
  · intro t ht
    simp [parseTelegramConfig, ht, Option.bind]
  · rfl
  · intro b tm
    simp [parseTelegramConfig, utf16Len, Option.bind]
  · intro t u tm hu
    by_cases ht : 1 ≤ utf16Len t <;>
      simp [parseTelegramConfig, ht, hu, Option.bind]
  · intro t b q hq
    by_cases ht : 1 ≤ utf16Len t <;>
      cases b <;>
        simp [parseTelegramConfig, ht, hq, Option.bind]

/-- Witness for claim C7 at concrete configurations. -/
theorem claim_C7_config_defaults_witness :
    parseTelegramConfig ⟨"tok1234567", none, none⟩ =
      some ⟨"tok1234567", "https://api.telegram.org", 30000⟩ ∧
    parseTelegramConfig ⟨"x", some "not a url", none⟩ = none ∧
    parseTelegramConfig ⟨"x", none, some 0⟩ = none :=
  ⟨claim_C7_config_defaults.1 "tok1234567" (by decide),
    claim_C7_config_defaults.2.2.2.1 "x" "not a url" none (by decide),
    claim_C7_config_defaults.2.2.2.2 "x" none 0 (by decide)⟩

/-- Counterexample to claim C8 as stated: for the three-character token
`"abc"` the accessor returns `"***"`, not first-3 + `"..."` + last-3; and
for the token `"*"` the masked string does contain the full token. -/
theorem claim_C8_counterexample :
    getBotTokenMasked "abc" = "***" ∧
    sliceFront3 "abc" ++ "..." ++ sliceBack3 "abc" = "abc...abc" ∧
    getBotTokenMasked "abc" ≠ sliceFront3 "abc" ++ "..." ++ sliceBack3 "abc" ∧
    strContains (getBotTokenMasked "*") "*" = true :=
  ⟨rfl, rfl, by decide, rfl⟩

/-- Claim C8 as amended: for tokens of length at least ten,
`getBotTokenMasked` returns the first three characters, `"..."`, and the
last three, and the result never contains the full token; shorter tokens
mask to `"***"`.  For the example token the mask contains `"..."` and not
the token's secret substring. -/
theorem claim_C8_masking :
    (∀ t : String, 10 ≤ t.length →
      getBotTokenMasked t = sliceFront3 t ++ "..." ++ sliceBack3 t ∧
      strContains (getBotTokenMasked t) t = false) ∧
    (∀ t : String, t.length < 10 → getBotTokenMasked t = "***") ∧
    strContains (getBotTokenMasked "123456789:ABCdefGHIjklMNOpqrsTUVwxyz")
      "..." = true ∧
    strContains (getBotTokenMasked "123456789:ABCdefGHIjklMNOpqrsTUVwxyz")
      "ABCdefGHIjklMNOpqrsTUVwxyz" = false := by
  refine ⟨fun t ht => ⟨?_, mask_not_contains ht⟩, fun t ht => ?_, rfl, rfl⟩
  · rw [getBotTokenMasked, if_neg (by omega)]
  · rw [getBotTokenMasked, if_pos ht]

/-- Witness for claim C8 at the example token. -/
theorem claim_C8_masking_witness :
    getBotTokenMasked "123456789:ABCdefGHIjklMNOpqrsTUVwxyz" =
      sliceFront3 "123456789:ABCdefGHIjklMNOpqrsTUVwxyz" ++ "..." ++
        sliceBack3 "123456789:ABCdefGHIjklMNOpqrsTUVwxyz" ∧
    strContains
      (getBotTokenMasked "123456789:ABCdefGHIjklMNOpqrsTUVwxyz")
      "123456789:ABCdefGHIjklMNOpqrsTUVwxyz" = false ∧
    getBotTokenMasked "short" = "***" :=
  ⟨(claim_C8_masking.1 _ (by decide)).1,
    (claim_C8_masking.1 _ (by decide)).2,
    claim_C8_masking.2.1 "short" (by decide)⟩

/-- Claim C9: any payload whose `chat.type` fails the closed enum check is
rejected by `ChatSchema`, and hence by `MessageSchema` and `UpdateSchema`
when the chat is nested inside them. -/
theorem claim_C9_chat_type_closed :
    (∀ (fs : JsonFields) (s : String), jLookup fs "type" = some (.str s) →
      parseChatType s = none → parseChat (.obj fs) = none) ∧
    (∀ (mfs cfs : JsonFields) (s : String),
      jLookup mfs "chat" = some (.obj cfs) →
      jLookup cfs "type" = some (.str s) → parseChatType s = none →
      parseMessage (.obj mfs) = none) ∧
    (∀ (ufs mfs cfs : JsonFields) (s : String),
      jLookup ufs "message" = some (.obj mfs) →
      jLookup mfs "chat" = some (.obj cfs) →
      jLookup cfs "type" = some (.str s) → parseChatType s = none →
      parseUpdate (.obj ufs) = none) := by
  refine ⟨?_, ?_, ?_⟩
  · intro fs s h1 h2
    exact parseChat_badType fs (.str s) h1 h2
  · intro mfs cfs s h1 h2 h3
    exact parseMessage_badChat mfs (.obj cfs) h1
      (parseChat_badType cfs (.str s) h2 h3)
  · intro ufs mfs cfs s h1 h2 h3 h4
    exact parseUpdate_badMessage ufs (.obj mfs) h1
      (parseMessage_badChat mfs (.obj cfs) h2
        (parseChat_badType cfs (.str s) h3 h4))

/-- A chat payload with the undeclared type `"team"`. -/
def badChatFs : JsonFields :=
  .cons "id" (.num 1) (.cons "type" (.str "team") .nil)

/-- A message payload holding the bad chat. -/
def badMsgFs : JsonFields :=
  .cons "message_id" (.num 1) (.cons "date" (.num 2)
    (.cons "chat" (.obj badChatFs) .nil))

/-- An update payload holding the bad message. -/
def badUpdFs : JsonFields :=
  .cons "update_id" (.num 1) (.cons "message" (.obj badMsgFs) .nil)

/-- Witness for claim C9 at a concrete out-of-enum chat type. -/
theorem claim_C9_chat_type_closed_witness :
    parseChat (.obj badChatFs) = none ∧
    parseUpdate (.obj badUpdFs) = none :=
  ⟨claim_C9_chat_type_closed.1 badChatFs "team" rfl rfl,
    claim_C9_chat_type_closed.2.2 badUpdFs badMsgFs badChatFs "team" rfl rfl
      rfl rfl⟩

/-- Claim C10: unknown keys are stripped, not rejected — extending the
canonical payload of any valid update (or nested message or user) with extra
fields at undeclared keys still parses successfully, to exactly the typed
value carrying only declared fields. -/
theorem claim_C10_unknown_keys :
    (∀ (u : Update) (junk : JsonFields), keysFree junk updKeys = true →
      updValid u = true → parseUpdate (extendObj (encUpdate u) junk) = some u) ∧
    (∀ (m : Message) (junk : JsonFields), keysFree junk msgKeys = true →
      msgValid m = true →
      parseMessage (extendObj (encMessage m) junk) = some m) ∧
    (∀ (us : User) (junk : JsonFields), keysFree junk userKeys = true →
      parseUser (extendObj (encUser us) junk) = some us) :=
  ⟨fun u junk hj hv => parseUpdate_extend u junk hj hv,
    fun m junk hj hv => parseMessage_extend m junk hj hv,
    fun us junk hj => parseUser_extend us junk hj⟩

/-- An extra field at an undeclared key. -/
def junkX : JsonFields := .cons "unknown_extra" (.str "x") .nil

/-- A demonstration user value. -/
def demoUser : User :=
  ⟨5, false, "Ann", none, none, none, none, none, none, none, none⟩

/-- Witness for claim C10 at concrete extended payloads. -/
theorem claim_C10_unknown_keys_witness :
    parseUpdate (extendObj (encUpdate demoUpd) junkX) = some demoUpd ∧
    parseUser (extendObj (encUser demoUser) junkX) = some demoUser :=
  ⟨claim_C10_unknown_keys.1 demoUpd junkX rfl rfl,
    claim_C10_unknown_keys.2.2 demoUser junkX rfl⟩
